import Mathlib

/-!
Verification development for the sales-dashboard aggregation/KPI engine.

The definitions below are a shallow embedding of the TypeScript source
(`dataService` module and the pivot table component of `App.tsx`):
JavaScript numbers are modelled as rationals, JS `Set` objects as `Finset`,
JS plain objects used as string-keyed maps as association lists in insertion
order, and JS array iteration as folds over Lean lists.
-/

/-- Canonical transaction record, mirroring the `SaleRecord` interface of
`types.ts`.  The optional `city`/`state` fields are modelled as strings where
the empty string plays the role of `undefined` (both are falsy in JS). -/
structure SaleRecord where
  id : String
  date : String
  region : String
  division : String
  sector : String
  salesRep : String
  channel : String
  supplier : String
  cnpj : String
  companyName : String
  productCode : String
  productDesc : String
  amount : ℚ
  quantity : ℤ
  orderId : String
  operClass : String
  paymentTerms : String
  networkName : String
  city : String
  state : String
deriving DecidableEq, Repr

/-- Filter state of the dashboard, mirroring the `FilterState` interface. -/
structure FilterState where
  division : List String
  region : List String
  sector : List String
  salesRep : List String
  channel : List String
  supplier : List String
  startMonth : String
  endMonth : String
deriving DecidableEq, Repr

/-- `matches` helper inside `filterData`: a dimension passes when the filter
list is empty, contains the sentinel "all", or contains the record value. -/
def matchesFilter (recordValue : String) (filterValues : List String) : Bool :=
  filterValues.isEmpty || filterValues.contains "all" || filterValues.contains recordValue

/-- The record month used for the date range test: `record.date.substring(0, 7)`. -/
def recordMonth (r : SaleRecord) : String :=
  r.date.take 7

/-- The predicate of `filterData`: date-month range plus the six dimension tests. -/
def passesFilter (filters : FilterState) (r : SaleRecord) : Bool :=
  let m := recordMonth r
  let inDateRange := decide (filters.startMonth ≤ m) && decide (m ≤ filters.endMonth)
  matchesFilter r.division filters.division &&
  matchesFilter r.region filters.region &&
  matchesFilter r.sector filters.sector &&
  matchesFilter r.salesRep filters.salesRep &&
  matchesFilter r.channel filters.channel &&
  matchesFilter r.supplier filters.supplier &&
  inDateRange

/-- `filterData` from the source: keep the records passing every predicate. -/
def filterData (data : List SaleRecord) (filters : FilterState) : List SaleRecord :=
  data.filter (passesFilter filters)

-- ## KPI Calculator (`calculateStatsInternal`)

/-- Insert a key at the end of the list when absent: models the insertion
order of keys in a JS object or `Set`. -/
def jsPushUnique (acc : List String) (x : String) : List String :=
  if x ∈ acc then acc else acc ++ [x]

/-- First-occurrence deduplication, the key order of a JS string-keyed object. -/
def jsDedup (l : List String) : List String :=
  l.foldl jsPushUnique []

/-- The JS statement `m[k] = (m[k] ‖ 0) + a` on a string-keyed object,
modelled on an insertion-ordered association list. -/
def addAmount (m : List (String × ℚ)) (k : String) (a : ℚ) : List (String × ℚ) :=
  if (m.lookup k).isSome then
    m.map (fun p => if p.1 = k then (p.1, p.2 + a) else p)
  else m ++ [(k, a)]

/-- `clientNetRevenue`: per-client running sum of `amount`, keyed by `cnpj`. -/
def clientNetRevenue (data : List SaleRecord) : List (String × ℚ) :=
  data.foldl (fun m r => addAmount m r.cnpj r.amount) []

/-- `activeClients`: ids of the clients whose net value is strictly positive. -/
def activeClients (data : List SaleRecord) : List String :=
  ((clientNetRevenue data).filter (fun p => 0 < p.2)).map (·.1)

/-- `positivacao`: the number of active clients. -/
def positivacaoOf (data : List SaleRecord) : ℕ :=
  (activeClients data).length

/-- `sales`: rows whose operation class is `VD`. -/
def salesOf (data : List SaleRecord) : List SaleRecord :=
  data.filter (fun r => r.operClass == "VD")

/-- `returns`: rows whose operation class is `DV`. -/
def returnsOf (data : List SaleRecord) : List SaleRecord :=
  data.filter (fun r => r.operClass == "DV")

/-- `new Set(sales.map(r => r.orderId)).size`. -/
def distinctOrdersVD (data : List SaleRecord) : ℕ :=
  ((salesOf data).map (·.orderId)).toFinset.card

/-- `new Set(returns.map(r => r.orderId)).size`. -/
def distinctOrdersDV (data : List SaleRecord) : ℕ :=
  ((returnsOf data).map (·.orderId)).toFinset.card

/-- `totalOrders = Math.max(0, distinctOrdersVD - distinctOrdersDV)`. -/
def totalOrdersOf (data : List SaleRecord) : ℤ :=
  max 0 ((distinctOrdersVD data : ℤ) - (distinctOrdersDV data : ℤ))

/-- `totalRevenue`: `data.reduce((acc, curr) => acc + curr.amount, 0)`. -/
def totalRevenueOf (data : List SaleRecord) : ℚ :=
  data.foldl (fun acc r => acc + r.amount) 0

/-- `averageTicket = totalOrders > 0 ? totalRevenue / totalOrders : 0`. -/
def averageTicketOf (data : List SaleRecord) : ℚ :=
  if 0 < totalOrdersOf data then totalRevenueOf data / (totalOrdersOf data : ℚ) else 0

/-- Per-client pair of JS `Set`s of product codes: sold (`vd`) and returned (`dv`). -/
def skuAdd (m : List (String × (Finset String × Finset String))) (r : SaleRecord) :
    List (String × (Finset String × Finset String)) :=
  let m := if (m.lookup r.cnpj).isSome then m else m ++ [(r.cnpj, (∅, ∅))]
  if r.operClass == "VD" then
    m.map (fun p => if p.1 = r.cnpj then (p.1, (insert r.productCode p.2.1, p.2.2)) else p)
  else if r.operClass == "DV" then
    m.map (fun p => if p.1 = r.cnpj then (p.1, (p.2.1, insert r.productCode p.2.2)) else p)
  else m

/-- `clientSkuMap`: distinct sold/returned product-code sets per client. -/
def clientSkuMap (data : List SaleRecord) :
    List (String × (Finset String × Finset String)) :=
  data.foldl skuAdd []

/-- `totalNetSkus`: over active clients with an entry in `clientSkuMap`, add
`Math.max(0, vdCount - dvCount)`. -/
def totalNetSkusOf (data : List SaleRecord) : ℤ :=
  (activeClients data).foldl (fun acc c =>
    match (clientSkuMap data).lookup c with
    | some s => acc + max 0 ((s.1.card : ℤ) - (s.2.card : ℤ))
    | none => acc) 0

/-- `skuPerPdv = positivacao > 0 ? totalNetSkus / positivacao : 0`. -/
def skuPerPdvOf (data : List SaleRecord) : ℚ :=
  if 0 < positivacaoOf data then (totalNetSkusOf data : ℚ) / (positivacaoOf data : ℚ) else 0

-- ### Payment-terms text parsing

/-- ASCII digit test. -/
def isDigitChar (c : Char) : Bool :=
  '0' ≤ c && c ≤ '9'

/-- Numeric value of an ASCII digit. -/
def digitVal (c : Char) : ℕ :=
  c.toNat - '0'.toNat

/-- One match of the regex `(\d{2})\/(\d{2})\/(\d{4})`. -/
structure DateToken where
  day : ℕ
  month : ℕ
  year : ℕ
deriving DecidableEq, Repr

/-- Try to match `\d{2}/\d{2}/\d{4}` at the head of the character list. -/
def dateTokenAt : List Char → Option DateToken
  | d1 :: d2 :: s1 :: m1 :: m2 :: s2 :: y1 :: y2 :: y3 :: y4 :: _ =>
    if isDigitChar d1 && isDigitChar d2 && s1 == '/' && isDigitChar m1 && isDigitChar m2
        && s2 == '/' && isDigitChar y1 && isDigitChar y2 && isDigitChar y3 && isDigitChar y4 then
      some ⟨10 * digitVal d1 + digitVal d2, 10 * digitVal m1 + digitVal m2,
        1000 * digitVal y1 + 100 * digitVal y2 + 10 * digitVal y3 + digitVal y4⟩
    else none
  | _ => none

/-- Fuel-based scanner for the global regex `/(\d{2})\/(\d{2})\/(\d{4})/g`:
scan left to right, resuming after the end of each match.  The fuel only
bounds the recursion; with fuel at least the list length the scan completes. -/
def findDateTokensAux : ℕ → List Char → List DateToken
  | 0, _ => []
  | _ + 1, [] => []
  | fuel + 1, c :: cs =>
    match dateTokenAt (c :: cs) with
    | some t => t :: findDateTokensAux fuel (cs.drop 9)
    | none => findDateTokensAux fuel cs

/-- All matches of the global regex `/(\d{2})\/(\d{2})\/(\d{4})/g`. -/
def findDateTokens (cs : List Char) : List DateToken :=
  findDateTokensAux cs.length cs

/-- JS `String.prototype.split(/[-\/]/)` on a character list: split at every
`-` or `/`, keeping empty segments. -/
def splitDashSlash : List Char → List (List Char)
  | [] => [[]]
  | c :: rest =>
    if c == '-' || c == '/' then [] :: splitDashSlash rest
    else
      match splitDashSlash rest with
      | t :: ts => (c :: t) :: ts
      | [] => [[c]]

/-- JS whitespace test for `trim`, restricted to the common ASCII blanks. -/
def isWsChar (c : Char) : Bool :=
  c == ' ' || c == '\t' || c == '\n' || c == '\r'

/-- JS `String.prototype.trim` on a character list. -/
def trimChars (cs : List Char) : List Char :=
  ((cs.dropWhile isWsChar).reverse.dropWhile isWsChar).reverse

/-- JS `parseInt(s, 10)`: skip blanks, optional sign, then the longest digit
prefix; `none` models `NaN`. -/
def jsParseIntChars (cs : List Char) : Option ℤ :=
  let cs := cs.dropWhile isWsChar
  let (sign, cs) : ℤ × List Char :=
    match cs with
    | '-' :: rest => (-1, rest)
    | '+' :: rest => (1, rest)
    | rest => (1, rest)
  let digits := cs.takeWhile isDigitChar
  if digits.isEmpty then none
  else some (sign * (digits.foldl (fun acc c => 10 * acc + (digitVal c : ℤ)) 0))

/-- JS `String.prototype.split(sep)` for a single-character separator, on a
character list: split at every occurrence, keeping empty segments. -/
def splitOnChar (sep : Char) : List Char → List (List Char)
  | [] => [[]]
  | c :: rest =>
    if c == sep then [] :: splitOnChar sep rest
    else
      match splitOnChar sep rest with
      | t :: ts => (c :: t) :: ts
      | [] => [[c]]

/-- JS `Number(s)` restricted to optionally signed integer strings: blanks-only
is `0`, otherwise the whole trimmed string must be digits; `none` models `NaN`. -/
def jsNumberInt (s : List Char) : Option ℤ :=
  let cs := trimChars s
  if cs.isEmpty then some 0
  else
    let (sign, ds) : ℤ × List Char :=
      match cs with
      | '-' :: rest => (-1, rest)
      | '+' :: rest => (1, rest)
      | rest => (1, rest)
    if !ds.isEmpty && ds.all isDigitChar then
      some (sign * (ds.foldl (fun acc c => 10 * acc + (digitVal c : ℤ)) 0))
    else none

/-- Day number of `new Date(y, monthIndex, d)` (days since 1970-01-01, local
civil calendar, out-of-range month index and day normalized as JS does). -/
def jsDateDays (y monthIndex d : ℤ) : ℤ :=
  let y1 := y + monthIndex.fdiv 12
  let m1 := monthIndex.emod 12 + 1
  let yAdj := if m1 ≤ 2 then y1 - 1 else y1
  let era := yAdj.fdiv 400
  let yoe := yAdj - era * 400
  let mp := (m1 + 9).emod 12
  let doy := (153 * mp + 2).fdiv 5 + (d - 1)
  let doe := yoe * 365 + yoe.fdiv 4 - yoe.fdiv 100 + doy
  era * 146097 + doe - 719468

/-- `r.date.split('-').map(Number)` destructured into year, month and day;
`none` models a `NaN` component. -/
def parseNfeDate (date : String) : Option (ℤ × ℤ × ℤ) :=
  match (splitOnChar '-' date.toList).map jsNumberInt with
  | some y :: some m :: some d :: _ => some (y, m, d)
  | _ => none

/-- The per-order term computation of `calculateStatsInternal` (the `else`
branch when the order id is not cached): explicit due-date tokens averaged as
day differences from the invoice date, otherwise numeric day offsets in
`(0, 2000)` averaged directly, otherwise `0`.  `none` models a `NaN` result
(unparseable invoice date with due-date tokens present). -/
def computeOrderTerm (r : SaleRecord) : Option ℚ :=
  let dateMatches := findDateTokens r.paymentTerms.toList
  if 0 < dateMatches.length then
    match parseNfeDate r.date with
    | none => none
    | some (y, m, d) =>
      let nfe := jsDateDays y (m - 1) d
      let total : ℤ := (dateMatches.map (fun t =>
        jsDateDays (t.year : ℤ) ((t.month : ℤ) - 1) (t.day : ℤ) - nfe)).sum
      some ((total : ℚ) / (dateMatches.length : ℚ))
  else
    let daysParts := (splitDashSlash r.paymentTerms.toList).map jsParseIntChars
    let valid := (daysParts.filterMap id).filter (fun n => 0 < n && n < 2000)
    if 0 < valid.length then some (((valid.sum : ℤ) : ℚ) / (valid.length : ℚ))
    else some 0

/-- State of the `avgTerm` loop: weighted-days numerator, revenue denominator
and the per-order memoization table. -/
structure TermState where
  totalWeightedDays : ℚ
  totalSalesForTerm : ℚ
  orderTermCache : List (String × Option ℚ)
deriving DecidableEq, Repr

/-- One iteration of the `avgTerm` loop over a sale row. -/
def avgTermStep (s : TermState) (r : SaleRecord) : TermState :=
  if r.paymentTerms ≠ "" ∧ r.date ≠ "" then
    let cached := s.orderTermCache.lookup r.orderId
    let avgDaysForOrder : Option ℚ :=
      match cached with
      | some v => v
      | none => computeOrderTerm r
    let cache :=
      match cached with
      | some _ => s.orderTermCache
      | none => s.orderTermCache ++ [(r.orderId, avgDaysForOrder)]
    match avgDaysForOrder with
    | some q =>
      if 0 ≤ q then
        { totalWeightedDays := s.totalWeightedDays + q * r.amount
          totalSalesForTerm := s.totalSalesForTerm + r.amount
          orderTermCache := cache }
      else { s with orderTermCache := cache }
    | none => { s with orderTermCache := cache }
  else s

/-- `avgTerm`: revenue-weighted mean of per-order day counts over sale rows. -/
def avgTermOf (data : List SaleRecord) : ℚ :=
  let st := (salesOf data).foldl avgTermStep ⟨0, 0, []⟩
  if 0 < st.totalSalesForTerm then st.totalWeightedDays / st.totalSalesForTerm else 0

/-- Installment count of a sale row: number of due-date tokens when present,
otherwise the number of non-blank segments between `-` and `/` separators. -/
def installmentCountOf (r : SaleRecord) : ℕ :=
  let dateMatches := findDateTokens r.paymentTerms.toList
  if 0 < dateMatches.length then dateMatches.length
  else ((splitDashSlash r.paymentTerms.toList).filter
    (fun t => 0 < (trimChars t).length)).length

/-- `avgInstallments`: revenue-weighted mean installment count over sale rows
with a non-empty terms text and a positive installment count. -/
def avgInstallmentsOf (data : List SaleRecord) : ℚ :=
  let st := (salesOf data).foldl (fun (acc : ℚ × ℚ) r =>
    if r.paymentTerms ≠ "" then
      let c := installmentCountOf r
      if 0 < c then (acc.1 + (c : ℚ) * r.amount, acc.2 + r.amount) else acc
    else acc) (0, 0)
  if 0 < st.2 then st.1 / st.2 else 0

/-- The seven-metric tuple of `types.ts`. -/
structure KPIStats where
  totalRevenue : ℚ
  positivacao : ℕ
  totalOrders : ℤ
  averageTicket : ℚ
  skuPerPdv : ℚ
  avgInstallments : ℚ
  avgTerm : ℚ
deriving DecidableEq, Repr

/-- `calculateStatsInternal`: the KPI battery over a record subset. -/
def calculateStatsInternal (data : List SaleRecord) : KPIStats where
  totalRevenue := totalRevenueOf data
  positivacao := positivacaoOf data
  totalOrders := totalOrdersOf data
  averageTicket := averageTicketOf data
  skuPerPdv := skuPerPdvOf data
  avgInstallments := avgInstallmentsOf data
  avgTerm := avgTermOf data

-- ## Spec-side characterisations of the KPI metrics

/-- Spec: the summed `amount` of one client over the record list. -/
def specClientNet (data : List SaleRecord) (c : String) : ℚ :=
  ((data.filter (fun r => r.cnpj == c)).map (·.amount)).sum

/-- Spec: distinct clients whose net sum is strictly positive. -/
def specPositivacao (data : List SaleRecord) : ℕ :=
  (((data.map (·.cnpj)).dedup).filter (fun c => decide (0 < specClientNet data c))).length

/-- Distinct product codes of the SALE rows of one client, as a finite set. -/
def vdCodes (data : List SaleRecord) (c : String) : Finset String :=
  ((data.filter (fun r => r.cnpj == c && r.operClass == "VD")).map (·.productCode)).toFinset

/-- Distinct product codes of the RETURN rows of one client, as a finite set. -/
def dvCodes (data : List SaleRecord) (c : String) : Finset String :=
  ((data.filter (fun r => r.cnpj == c && r.operClass == "DV")).map (·.productCode)).toFinset

/-- Spec: count of distinct product codes in the SALE rows of one client. -/
def specVdCount (data : List SaleRecord) (c : String) : ℕ :=
  ((data.filter (fun r => r.cnpj == c && r.operClass == "VD")).map (·.productCode)).dedup.length

/-- Spec: count of distinct product codes in the RETURN rows of one client. -/
def specDvCount (data : List SaleRecord) (c : String) : ℕ :=
  ((data.filter (fun r => r.cnpj == c && r.operClass == "DV")).map (·.productCode)).dedup.length

/-- Spec: per-client net SKU counts floored at zero, summed over exactly the
positivated clients. -/
def specSkuSum (data : List SaleRecord) : ℤ :=
  ((((data.map (·.cnpj)).dedup).filter (fun c => decide (0 < specClientNet data c))).map
    (fun c => max 0 ((specVdCount data c : ℤ) - (specDvCount data c : ℤ)))).sum

/-- A payment-terms text yields a valid value when it contains an explicit
due-date token or a numeric day-offset token strictly between 0 and 2000. -/
def hasValidTermTokens (r : SaleRecord) : Bool :=
  decide (0 < (findDateTokens r.paymentTerms.toList).length) ||
    decide (0 < ((((splitDashSlash r.paymentTerms.toList).map jsParseIntChars).filterMap
      id).filter (fun n => 0 < n && n < 2000)).length)

/-- Spec-described `avgTerm` step: identical to `avgTermStep` except that an
order whose terms yield no valid value is excluded from both the weighted-days
numerator and the revenue denominator (recorded as `none` in the cache). -/
def specAvgTermStep (s : TermState) (r : SaleRecord) : TermState :=
  if r.paymentTerms ≠ "" ∧ r.date ≠ "" then
    let cached := s.orderTermCache.lookup r.orderId
    let avgDaysForOrder : Option ℚ :=
      match cached with
      | some v => v
      | none => if hasValidTermTokens r then computeOrderTerm r else none
    let cache :=
      match cached with
      | some _ => s.orderTermCache
      | none => s.orderTermCache ++ [(r.orderId, avgDaysForOrder)]
    match avgDaysForOrder with
    | some q =>
      if 0 ≤ q then
        { totalWeightedDays := s.totalWeightedDays + q * r.amount
          totalSalesForTerm := s.totalSalesForTerm + r.amount
          orderTermCache := cache }
      else { s with orderTermCache := cache }
    | none => { s with orderTermCache := cache }
  else s

/-- Spec-described `avgTerm`: the weighted average with invalid orders excluded. -/
def specAvgTermOf (data : List SaleRecord) : ℚ :=
  let st := (salesOf data).foldl specAvgTermStep ⟨0, 0, []⟩
  if 0 < st.totalSalesForTerm then st.totalWeightedDays / st.totalSalesForTerm else 0

-- ### Concrete example records

/-- A blank record used as the base for concrete test inputs. -/
def baseRec : SaleRecord :=
  ⟨"", "", "", "", "", "", "", "", "", "", "", "", 0, 0, "", "VD", "", "", "", ""⟩

/-- Sale row whose payment terms yield no due-date token and no numeric
day-offset token. -/
def exTermInvalid : SaleRecord :=
  { baseRec with
    date := "2025-01-01"
    cnpj := "C1"
    productCode := "P1"
    amount := 100
    orderId := "A"
    paymentTerms := "SEM PRAZO" }

/-- Sale row whose payment terms hold the single numeric day offset 10. -/
def exTermValid : SaleRecord :=
  { baseRec with
    date := "2025-01-01"
    cnpj := "C2"
    productCode := "P2"
    amount := 100
    orderId := "B"
    paymentTerms := "10" }

/-- Two-row input separating the code behaviour from the spec-described
`avgTerm` behaviour. -/
def exC1data : List SaleRecord :=
  [exTermInvalid, exTermValid]

-- ## Pivot table column totals (`KPIPivotTable` in App.tsx)

/-- One displayed row of the sector pivot table: the sector name, the
per-month stats keyed by "YYYY-MM", and the row-level three-month average. -/
structure PivotRow where
  sector : String
  months : List (String × KPIStats)
  total : KPIStats
deriving DecidableEq, Repr

/-- The metric keys treated as ratio metrics by the pivot component. -/
def ratioMetricKeys : List String :=
  ["skuPerPdv", "averageTicket", "avgTerm", "avgInstallments"]

/-- `isRatioMetric` from the pivot component. -/
def isRatioMetric (dataKey : String) : Bool :=
  ratioMetricKeys.contains dataKey

/-- Dynamic indexing `stats[dataKey]` of a `KPIStats` value. -/
def statGet (s : KPIStats) (dataKey : String) : ℚ :=
  if dataKey = "totalRevenue" then s.totalRevenue
  else if dataKey = "positivacao" then (s.positivacao : ℚ)
  else if dataKey = "totalOrders" then (s.totalOrders : ℚ)
  else if dataKey = "averageTicket" then s.averageTicket
  else if dataKey = "skuPerPdv" then s.skuPerPdv
  else if dataKey = "avgInstallments" then s.avgInstallments
  else if dataKey = "avgTerm" then s.avgTerm
  else 0

/-- The per-row column value `(row.months[mKey]?.[dataKey] as number) ‖ 0`:
the metric value for that month, `0` when the month is missing. -/
def columnValue (row : PivotRow) (dataKey mKey : String) : ℚ :=
  ((row.months.lookup mKey).map (fun st => statGet st dataKey)).getD 0

/-- `calculateColumnTotal` of the pivot component: sum the per-row values of
one month column, divide by the number of displayed rows for ratio metrics. -/
def calculateColumnTotal (sortedRows : List PivotRow) (dataKey mKey : String) : ℚ :=
  let valuesInColumn := sortedRows.map (fun row => columnValue row dataKey mKey)
  let sum := valuesInColumn.foldl (· + ·) 0
  let count := sortedRows.length
  if count = 0 then 0
  else if isRatioMetric dataKey then sum / (count : ℚ) else sum

-- ### Concrete pivot rows

/-- Concrete stats with averageTicket 50 and totalRevenue 100. -/
def exStats : KPIStats :=
  ⟨100, 1, 2, 50, 3, 1, 30⟩

/-- Two displayed pivot rows, the second missing the month "2025-08". -/
def exPivotRows : List PivotRow :=
  [⟨"S1", [("2025-08", exStats)], exStats⟩, ⟨"S2", [], exStats⟩]

-- ## Record Normalizer (`parseCSV`)

/-- The regex `^\d{4}-\d{2}-\d{2}$` on a character list. -/
def isIsoChars : List Char → Bool
  | [a, b, c, d, e, f, g, h, i, j] =>
    isDigitChar a && isDigitChar b && isDigitChar c && isDigitChar d && e == '-' &&
      isDigitChar f && isDigitChar g && h == '-' && isDigitChar i && isDigitChar j
  | _ => false

/-- The regex `^\d{4}-\d{2}-\d{2}$` on a string. -/
def isIsoDate (s : String) : Bool :=
  isIsoChars s.toList

/-- `parseDate` of `parseCSV`: a `YYYY-MM-DD` shaped string is returned as-is;
otherwise a string splitting on `/` into exactly three parts is reassembled as
`parts[2]-parts[1]-parts[0]`; anything else becomes the empty string. -/
def parseDate (val : String) : String :=
  if val = "" then ""
  else if isIsoDate val then val
  else
    match splitOnChar '/' val.toList with
    | [a, b, c] => String.mk (c ++ '-' :: b ++ '-' :: a)
    | _ => ""

/-- Remove every occurrence of `R$` or `r$` (the regex `/R\$/gi`). -/
def removeRS : List Char → List Char
  | [] => []
  | 'R' :: '$' :: rest => removeRS rest
  | 'r' :: '$' :: rest => removeRS rest
  | c :: rest => c :: removeRS rest

/-- Replace the first occurrence of a character (JS `replace(c, d)`). -/
def replaceFirst : List Char → Char → Char → List Char
  | [], _, _ => []
  | c :: rest, a, b => if c == a then b :: rest else c :: replaceFirst rest a b

/-- Numeric value of a digit list read left to right. -/
def digitsVal (cs : List Char) : ℚ :=
  cs.foldl (fun acc c => 10 * acc + (digitVal c : ℚ)) 0

/-- JS `parseFloat` restricted to strings of digits, dots and commas (the
alphabet reaching it in `parseAmount`): longest numeric prefix, `none` for
`NaN`. -/
def jsParseFloat (cs : List Char) : Option ℚ :=
  let intPart := cs.takeWhile isDigitChar
  let rest := cs.drop intPart.length
  match rest with
  | '.' :: rest2 =>
    let fracPart := rest2.takeWhile isDigitChar
    if intPart.isEmpty && fracPart.isEmpty then none
    else some (digitsVal intPart + digitsVal fracPart / (10 : ℚ) ^ fracPart.length)
  | _ => if intPart.isEmpty then none else some (digitsVal intPart)

/-- `parseAmount` of `parseCSV`: strip `R$`, detect an explicit minus sign,
keep digits/commas/dots, apply the Brazilian separator rules, parse, and
reapply the sign. -/
def parseAmount (val : String) : ℚ :=
  if val = "" then 0
  else
    let str := trimChars val.toList
    let isExplicitNegative := str.contains '-'
    let str2 := trimChars (removeRS str)
    let clean := str2.filter (fun c => isDigitChar c || c == ',' || c == '.')
    let clean2 :=
      if clean.contains ',' && clean.contains '.' then
        replaceFirst (clean.filter (fun c => !(c == '.'))) ',' '.'
      else if clean.contains ',' then replaceFirst clean ',' '.'
      else clean
    match jsParseFloat clean2 with
    | none => 0
    | some num => if isExplicitNegative then -|num| else num

/-- The four values of the `Channel` enum. -/
def channelValues : List String :=
  ["RC", "WEB", "VD", "TV"]

/-- Papa-parse row: header label to cell text; a missing label plays the role
of `undefined` through the empty-string default of `rowGet`. -/
def rowGet (row : List (String × String)) (k : String) : String :=
  (row.lookup k).getD ""

/-- JS `a ‖ b ‖ ... ‖ dflt` over string values: first non-empty value. -/
def firstTruthy (vals : List String) (dflt : String) : String :=
  (vals.find? (fun v => v ≠ "")).getD dflt

/-- The date cell of a row: `row['Data NFE'] ‖ row['Data'] ‖ ''`. -/
def dateStrOf (row : List (String × String)) : String :=
  firstTruthy [rowGet row "Data NFE", rowGet row "Data"] ""

/-- One iteration of the `parseCSV` row loop: build the canonical record, or
drop the row when its normalized date is empty. -/
def rowToRecord (index : ℕ) (row : List (String × String)) : Option SaleRecord :=
  let sector := firstTruthy [rowGet row "Setor"] "N/A"
  let region := firstTruthy [rowGet row "Região", rowGet row "Regiao"] "N/A"
  let division := firstTruthy [rowGet row "Divisão", rowGet row "Divisao"] "N/A"
  let channelStr := firstTruthy [rowGet row "Canal"] "N/A"
  let channel := if channelValues.contains channelStr then channelStr else "VD"
  let amountStr := firstTruthy
    [rowGet row "SOMA Valor", rowGet row "Valor", rowGet row "Faturamento"] "0"
  let amount := parseAmount amountStr
  let qtyStr := firstTruthy [rowGet row "SOMA Quantidade", rowGet row "Quantidade"] "0"
  let quantity := (jsParseIntChars qtyStr.toList).getD 0
  let date := parseDate (dateStrOf row)
  let cnpj := firstTruthy [rowGet row "CNPJ", rowGet row "Cliente"]
    ("UNKNOWN-" ++ toString index)
  let companyName := firstTruthy
    [rowGet row "Razão Social", rowGet row "Razao Social", rowGet row "Nome"]
    "Cliente Desconhecido"
  let productCode := firstTruthy
    [rowGet row "Cód. Produto", rowGet row "Cod. Produto", rowGet row "Produto"] "N/A"
  let productDesc := firstTruthy [rowGet row "Descrição", rowGet row "Descricao"]
    "Produto Desconhecido"
  let orderId := firstTruthy [rowGet row "Num. Pedido", rowGet row "Pedido"]
    ("UNK-" ++ toString index)
  let operClass :=
    if rowGet row "Classe Oper." = "DV" ∨ rowGet row "Classe Oper" = "DV" then "DV" else "VD"
  let paymentTerms := firstTruthy [rowGet row "Prazos", rowGet row "Cond. Pagto"] ""
  let networkName := firstTruthy
    [rowGet row "Nome Rede A", rowGet row "Nome Rede R/I", rowGet row "Rede"] "Independente"
  let supplier := firstTruthy [rowGet row "Fornecedor"] "N/A"
  let salesRep := firstTruthy
    [rowGet row "Representante da venda", rowGet row "Representante"] "N/A"
  let city := firstTruthy
    [rowGet row "Cidade", rowGet row "Município", rowGet row "Municipio", rowGet row "City"] ""
  let state := firstTruthy [rowGet row "UF", rowGet row "Estado", rowGet row "State"] ""
  if date ≠ "" then
    some ⟨"ROW-" ++ toString index, date, region, division, sector, salesRep, channel,
      supplier, cnpj, companyName, productCode, productDesc, amount, quantity, orderId,
      operClass, paymentTerms, networkName, city, state⟩
  else none

/-- `new Date(dateStr).getTime()` restricted to the ISO shape; `none` models
`NaN` for every other shape reaching the final sort. -/
def jsDateMs (s : String) : Option ℤ :=
  if isIsoDate s then
    match parseNfeDate s with
    | some (y, m, d) => some (86400000 * jsDateDays y (m - 1) d)
    | none => none
  else none

/-- Comparator of the final sort of `parseCSV`; a `NaN` difference is treated
as `0` by `Array.prototype.sort`, modelled as "do not swap". -/
def jsDateLe (a b : SaleRecord) : Bool :=
  match jsDateMs a.date, jsDateMs b.date with
  | some x, some y => decide (x ≤ y)
  | _, _ => true

/-- `parseCSV` row pipeline: normalize each row (dropping the ones without a
date) and sort the result by invoice date. -/
def parseCSV (rows : List (List (String × String))) : List SaleRecord :=
  ((rows.enum.filterMap (fun p => rowToRecord p.1 p.2)).mergeSort jsDateLe)

/-- A raw row with a date cell that is neither ISO shaped nor `DD/MM/YYYY`
but still splits on `/` into three parts. -/
def exRawRowBadDate : List (String × String) :=
  [("Data NFE", "a/b/c")]

-- ## Cascading filter options (`getCascadingOptions`)

/-- The six filterable dimensions. -/
inductive Dim
  | division
  | region
  | sector
  | salesRep
  | channel
  | supplier
deriving DecidableEq, Repr

/-- The record field read by each dimension. -/
def dimField : Dim → SaleRecord → String
  | .division => (·.division)
  | .region => (·.region)
  | .sector => (·.sector)
  | .salesRep => (·.salesRep)
  | .channel => (·.channel)
  | .supplier => (·.supplier)

/-- The filter-state list of each dimension. -/
def dimFilter : Dim → FilterState → List String
  | .division => (·.division)
  | .region => (·.region)
  | .sector => (·.sector)
  | .salesRep => (·.salesRep)
  | .channel => (·.channel)
  | .supplier => (·.supplier)

/-- The dimensions in the order the subset filter tests them. -/
def allDims : List Dim :=
  [.division, .region, .sector, .salesRep, .channel, .supplier]

/-- `filtersToApply` after destructuring one dimension away: `none` models the
removed key. -/
def filtersWithout (cf : FilterState) (d : Dim) : Dim → Option (List String) :=
  fun e => if e = d then none else some (dimFilter e cf)

/-- One dimension test of the subset filter in `getOptionsFor`: a record is
rejected when the list is present, does not hold "all", is non-empty and does
not hold the record value. -/
def dimPass (fta : Dim → Option (List String)) (r : SaleRecord) (d : Dim) : Bool :=
  match fta d with
  | none => true
  | some l => !(!l.contains "all" && !l.isEmpty && !l.contains (dimField d r))

/-- The date-month range test of the subset filter in `getOptionsFor`. -/
def dateInRange (cf : FilterState) (r : SaleRecord) : Bool :=
  !(decide (recordMonth r < cf.startMonth) || decide (cf.endMonth < recordMonth r))

/-- `getOptionsFor`: distinct non-empty values of one field over the subset
passing the date range and the supplied dimension filters, sorted ascending. -/
def getOptionsFor (data : List SaleRecord) (cf : FilterState) (key : Dim)
    (fta : Dim → Option (List String)) : List String :=
  let subset := data.filter (fun r =>
    dateInRange cf r && allDims.all (fun d => dimPass fta r d))
  ((jsDedup (subset.map (dimField key))).filter (fun v => v ≠ "")).mergeSort
    (fun a b => decide (a ≤ b))

/-- The cascading option list of one dimension: its own filter is removed. -/
def getCascadingOptions (data : List SaleRecord) (cf : FilterState) (d : Dim) :
    List String :=
  getOptionsFor data cf d (filtersWithout cf d)

-- ## Geo Resolver (`getCityCoords`, `getGeoStats`)

/-- One gazetteer row: state, city, latitude, longitude. -/
structure CityEntry where
  uf : String
  city : String
  lat : ℚ
  lng : ℚ
deriving DecidableEq, Repr

/-- Gazetteer rows 0 to 249 of `RAW_CITIES_CSV` (`STATE,CITY,LAT,LNG`). -/
def rawCities0 : List CityEntry := [
  CityEntry.mk "PR" "ABATIA" (-23.3049 : ℚ) (-50.3133 : ℚ),
  CityEntry.mk "PR" "ADRIANOPOLIS" (-24.6606 : ℚ) (-48.9922 : ℚ),
  CityEntry.mk "PR" "AGUDOS DO SUL" (-25.9899 : ℚ) (-49.3343 : ℚ),
  CityEntry.mk "PR" "ALMIRANTE TAMANDARE" (-25.3188 : ℚ) (-49.3037 : ℚ),
  CityEntry.mk "PR" "ALTAMIRA DO PARANA" (-24.7983 : ℚ) (-52.7128 : ℚ),
  CityEntry.mk "PR" "ALTO PARAISO" (-26.1146 : ℚ) (-52.7469 : ℚ),
  CityEntry.mk "PR" "ALTO PARANA" (-23.1312 : ℚ) (-52.3189 : ℚ),
  CityEntry.mk "PR" "ALTO PIQUIRI" (-24.0224 : ℚ) (-53.44 : ℚ),
  CityEntry.mk "PR" "ALTONIA" (-23.8759 : ℚ) (-53.8958 : ℚ),
  CityEntry.mk "PR" "ALVORADA DO SUL" (-22.7813 : ℚ) (-51.2297 : ℚ),
  CityEntry.mk "PR" "AMAPORA" (-23.0943 : ℚ) (-52.7866 : ℚ),
  CityEntry.mk "PR" "AMPERE" (-25.9168 : ℚ) (-53.4686 : ℚ),
  CityEntry.mk "PR" "ANAHY" (-24.6449 : ℚ) (-53.1332 : ℚ),
  CityEntry.mk "PR" "ANDIRA" (-23.0533 : ℚ) (-50.2304 : ℚ),
  CityEntry.mk "PR" "ANGULO" (-23.1946 : ℚ) (-51.9154 : ℚ),
  CityEntry.mk "PR" "ANTONINA" (-25.4386 : ℚ) (-48.7191 : ℚ),
  CityEntry.mk "PR" "ANTONIO OLINTO" (-25.9804 : ℚ) (-50.1972 : ℚ),
  CityEntry.mk "PR" "APUCARANA" (-23.55 : ℚ) (-51.4635 : ℚ),
  CityEntry.mk "PR" "ARAPONGAS" (-23.4153 : ℚ) (-51.4259 : ℚ),
  CityEntry.mk "PR" "ARAPOTI" (-24.1548 : ℚ) (-49.8285 : ℚ),
  CityEntry.mk "PR" "ARAPUA" (-24.3132 : ℚ) (-51.7856 : ℚ),
  CityEntry.mk "PR" "ARARUNA" (-23.9315 : ℚ) (-52.5021 : ℚ),
  CityEntry.mk "PR" "ARAUCARIA" (-25.5859 : ℚ) (-49.4047 : ℚ),
  CityEntry.mk "PR" "ARIRANHA DO IVAI" (-24.3857 : ℚ) (-51.5839 : ℚ),
  CityEntry.mk "PR" "ASSAI" (-23.3697 : ℚ) (-50.8459 : ℚ),
  CityEntry.mk "PR" "ASSIS CHATEAUBRIAND" (-24.4168 : ℚ) (-53.5213 : ℚ),
  CityEntry.mk "PR" "ASTORGA" (-23.2318 : ℚ) (-51.6668 : ℚ),
  CityEntry.mk "PR" "ATALAIA" (-23.1517 : ℚ) (-52.0551 : ℚ),
  CityEntry.mk "PR" "BALSA NOVA" (-25.5804 : ℚ) (-49.6291 : ℚ),
  CityEntry.mk "PR" "BANDEIRANTES" (-23.1078 : ℚ) (-50.3704 : ℚ),
  CityEntry.mk "PR" "BARBOSA FERRAZ" (-24.0334 : ℚ) (-52.004 : ℚ),
  CityEntry.mk "PR" "BARRA DO JACARE" (-23.116 : ℚ) (-50.1842 : ℚ),
  CityEntry.mk "PR" "BARRACAO" (-26.2502 : ℚ) (-53.6324 : ℚ),
  CityEntry.mk "PR" "BELA VISTA DA CAROBA" (-25.8842 : ℚ) (-53.6725 : ℚ),
  CityEntry.mk "PR" "BELA VISTA DO PARAISO" (-22.9937 : ℚ) (-51.1927 : ℚ),
  CityEntry.mk "PR" "BITURUNA" (-26.1607 : ℚ) (-51.5518 : ℚ),
  CityEntry.mk "PR" "BOA ESPERANCA" (-24.2467 : ℚ) (-52.7876 : ℚ),
  CityEntry.mk "PR" "BOA VENTURA DE SAO ROQUE" (-24.8688 : ℚ) (-51.6276 : ℚ),
  CityEntry.mk "PR" "BOA VISTA DA APARECIDA" (-25.4308 : ℚ) (-53.4117 : ℚ),
  CityEntry.mk "PR" "BOCAIUVA DO SUL" (-25.2066 : ℚ) (-49.1141 : ℚ),
  CityEntry.mk "PR" "BOM SUCESSO" (-23.7063 : ℚ) (-51.7671 : ℚ),
  CityEntry.mk "PR" "BOM SUCESSO DO SUL" (-26.0731 : ℚ) (-52.8353 : ℚ),
  CityEntry.mk "PR" "BORRAZOPOLIS" (-23.9366 : ℚ) (-51.5875 : ℚ),
  CityEntry.mk "PR" "BRAGANEY" (-24.8173 : ℚ) (-53.1218 : ℚ),
  CityEntry.mk "PR" "BRASILANDIA DO SUL" (-24.1978 : ℚ) (-53.5275 : ℚ),
  CityEntry.mk "PR" "CAFEARA" (-22.789 : ℚ) (-51.7142 : ℚ),
  CityEntry.mk "PR" "CAFELANDIA" (-24.6189 : ℚ) (-53.3207 : ℚ),
  CityEntry.mk "PR" "CAFEZAL DO SUL" (-23.9005 : ℚ) (-53.5124 : ℚ),
  CityEntry.mk "PR" "CALIFORNIA" (-23.6566 : ℚ) (-51.3574 : ℚ),
  CityEntry.mk "PR" "CAMBARA" (-23.0423 : ℚ) (-50.0753 : ℚ),
  CityEntry.mk "PR" "CAMBE" (-23.2766 : ℚ) (-51.2798 : ℚ),
  CityEntry.mk "PR" "CAMBIRA" (-23.589 : ℚ) (-51.5792 : ℚ),
  CityEntry.mk "PR" "CAMPINA DA LAGOA" (-24.5893 : ℚ) (-52.7976 : ℚ),
  CityEntry.mk "PR" "CAMPINA DO SIMAO" (-25.0802 : ℚ) (-51.8237 : ℚ),
  CityEntry.mk "PR" "CAMPINA GRANDE DO SUL" (-25.3044 : ℚ) (-49.0551 : ℚ),
  CityEntry.mk "PR" "CAMPO BONITO" (-25.0294 : ℚ) (-52.9939 : ℚ),
  CityEntry.mk "PR" "CAMPO DO TENENTE" (-25.98 : ℚ) (-49.6844 : ℚ),
  CityEntry.mk "PR" "CAMPO LARGO" (-25.4525 : ℚ) (-49.529 : ℚ),
  CityEntry.mk "PR" "CAMPO MAGRO" (-25.3687 : ℚ) (-49.4501 : ℚ),
  CityEntry.mk "PR" "CAMPO MOURAO" (-24.0463 : ℚ) (-52.378 : ℚ),
  CityEntry.mk "PR" "CANDIDO DE ABREU" (-24.5649 : ℚ) (-51.3372 : ℚ),
  CityEntry.mk "PR" "CANDOI" (-25.5758 : ℚ) (-52.0409 : ℚ),
  CityEntry.mk "PR" "CANTAGALO" (-25.3734 : ℚ) (-52.1198 : ℚ),
  CityEntry.mk "PR" "CAPANEMA" (-25.6691 : ℚ) (-53.8055 : ℚ),
  CityEntry.mk "PR" "CAPITAO LEONIDAS MARQUES" (-25.4816 : ℚ) (-53.6112 : ℚ),
  CityEntry.mk "PR" "CARAMBEI" (-24.9152 : ℚ) (-50.0986 : ℚ),
  CityEntry.mk "PR" "CARLOPOLIS" (-23.4269 : ℚ) (-49.7235 : ℚ),
  CityEntry.mk "PR" "CASCAVEL" (-24.9573 : ℚ) (-53.459 : ℚ),
  CityEntry.mk "PR" "CASTRO" (-24.7891 : ℚ) (-50.0108 : ℚ),
  CityEntry.mk "PR" "CATANDUVAS" (-25.2044 : ℚ) (-53.1548 : ℚ),
  CityEntry.mk "PR" "CENTENARIO DO SUL" (-22.8188 : ℚ) (-51.5973 : ℚ),
  CityEntry.mk "PR" "CERRO AZUL" (-26.0891 : ℚ) (-52.8691 : ℚ),
  CityEntry.mk "PR" "CEU AZUL" (-25.1489 : ℚ) (-53.8415 : ℚ),
  CityEntry.mk "PR" "CHOPINZINHO" (-25.8515 : ℚ) (-52.5173 : ℚ),
  CityEntry.mk "PR" "CIANORTE" (-23.6599 : ℚ) (-52.6054 : ℚ),
  CityEntry.mk "PR" "CIDADE GAUCHA" (-23.3772 : ℚ) (-52.9436 : ℚ),
  CityEntry.mk "PR" "CLEVELANDIA" (-26.4043 : ℚ) (-52.3508 : ℚ),
  CityEntry.mk "PR" "COLOMBO" (-25.2925 : ℚ) (-49.2262 : ℚ),
  CityEntry.mk "PR" "COLORADO" (-22.8374 : ℚ) (-51.9743 : ℚ),
  CityEntry.mk "PR" "CONGONHINHAS" (-23.5493 : ℚ) (-50.5569 : ℚ),
  CityEntry.mk "PR" "CONSELHEIRO MAIRINCK" (-23.623 : ℚ) (-50.1707 : ℚ),
  CityEntry.mk "PR" "CONTENDA" (-25.6788 : ℚ) (-49.535 : ℚ),
  CityEntry.mk "PR" "CORBELIA" (-24.7971 : ℚ) (-53.3006 : ℚ),
  CityEntry.mk "PR" "CORNELIO PROCOPIO" (-23.1829 : ℚ) (-50.6498 : ℚ),
  CityEntry.mk "PR" "CORONEL DOMINGOS SOARES" (-26.2277 : ℚ) (-52.0356 : ℚ),
  CityEntry.mk "PR" "CORONEL VIVIDA" (-25.9767 : ℚ) (-52.5641 : ℚ),
  CityEntry.mk "PR" "CORUMBATAI DO SUL" (-24.101 : ℚ) (-52.1177 : ℚ),
  CityEntry.mk "PR" "CRUZ MACHADO" (-26.0166 : ℚ) (-51.343 : ℚ),
  CityEntry.mk "PR" "CRUZEIRO DO IGUACU" (-25.6192 : ℚ) (-53.1285 : ℚ),
  CityEntry.mk "PR" "CRUZEIRO DO OESTE" (-23.7799 : ℚ) (-53.0774 : ℚ),
  CityEntry.mk "PR" "CRUZEIRO DO SUL" (-22.9624 : ℚ) (-52.1622 : ℚ),
  CityEntry.mk "PR" "CRUZMALTINA" (-24.0132 : ℚ) (-51.4563 : ℚ),
  CityEntry.mk "PR" "CURITIBA" (-25.4195 : ℚ) (-49.2646 : ℚ),
  CityEntry.mk "PR" "CURIUVA" (-24.0362 : ℚ) (-50.4576 : ℚ),
  CityEntry.mk "PR" "DIAMANTE DO NORTE" (-22.655 : ℚ) (-52.8617 : ℚ),
  CityEntry.mk "PR" "DIAMANTE DO OESTE" (-24.9462 : ℚ) (-54.103 : ℚ),
  CityEntry.mk "PR" "DIAMANTE DO SUL" (-25.035 : ℚ) (-52.6768 : ℚ),
  CityEntry.mk "PR" "DOIS VIZINHOS" (-25.7407 : ℚ) (-53.057 : ℚ),
  CityEntry.mk "PR" "DOURADINA" (-23.3807 : ℚ) (-53.2918 : ℚ),
  CityEntry.mk "PR" "DOUTOR ULYSSES" (-24.5665 : ℚ) (-49.4219 : ℚ),
  CityEntry.mk "PR" "ENEAS MARQUES" (-25.9445 : ℚ) (-53.1659 : ℚ),
  CityEntry.mk "PR" "ENGENHEIRO BELTRAO" (-23.797 : ℚ) (-52.2659 : ℚ),
  CityEntry.mk "PR" "ENTRE RIOS DO OESTE" (-24.7042 : ℚ) (-54.2385 : ℚ),
  CityEntry.mk "PR" "ESPERANCA NOVA" (-23.7238 : ℚ) (-53.811 : ℚ),
  CityEntry.mk "PR" "ESPIGAO ALTO DO IGUACU" (-25.4216 : ℚ) (-52.8348 : ℚ),
  CityEntry.mk "PR" "FAROL" (-24.0958 : ℚ) (-52.6217 : ℚ),
  CityEntry.mk "PR" "FAXINAL" (-24.0077 : ℚ) (-51.3227 : ℚ),
  CityEntry.mk "PR" "FAZENDA RIO GRANDE" (-25.6624 : ℚ) (-49.3073 : ℚ),
  CityEntry.mk "PR" "FENIX" (-23.9135 : ℚ) (-51.9805 : ℚ),
  CityEntry.mk "PR" "FIGUEIRA" (-23.8455 : ℚ) (-50.4031 : ℚ),
  CityEntry.mk "PR" "FLOR DA SERRA DO SUL" (-26.2523 : ℚ) (-53.3092 : ℚ),
  CityEntry.mk "PR" "FLORAI" (-23.3178 : ℚ) (-52.3029 : ℚ),
  CityEntry.mk "PR" "FLORESTA" (-23.6031 : ℚ) (-52.0807 : ℚ),
  CityEntry.mk "PR" "FLORESTOPOLIS" (-22.8623 : ℚ) (-51.3882 : ℚ),
  CityEntry.mk "PR" "FLORIDA" (-23.0847 : ℚ) (-51.9546 : ℚ),
  CityEntry.mk "PR" "FORMOSA DO OESTE" (-24.2951 : ℚ) (-53.3114 : ℚ),
  CityEntry.mk "PR" "FOZ DO IGUACU" (-25.5427 : ℚ) (-54.5827 : ℚ),
  CityEntry.mk "PR" "FOZ DO JORDAO" (-25.7371 : ℚ) (-52.1188 : ℚ),
  CityEntry.mk "PR" "FRANCISCO ALVES" (-24.0667 : ℚ) (-53.8461 : ℚ),
  CityEntry.mk "PR" "FRANCISCO BELTRAO" (-26.0817 : ℚ) (-53.0535 : ℚ),
  CityEntry.mk "PR" "GENERAL CARNEIRO" (-26.425 : ℚ) (-51.3172 : ℚ),
  CityEntry.mk "PR" "GODOY MOREIRA" (-24.173 : ℚ) (-51.9246 : ℚ),
  CityEntry.mk "PR" "GOIOERE" (-24.1835 : ℚ) (-53.0248 : ℚ),
  CityEntry.mk "PR" "GOIOXIM" (-25.1927 : ℚ) (-51.9911 : ℚ),
  CityEntry.mk "PR" "GRANDES RIOS" (-24.1466 : ℚ) (-51.5094 : ℚ),
  CityEntry.mk "PR" "GUAIRA" (-24.085 : ℚ) (-54.2573 : ℚ),
  CityEntry.mk "PR" "GUAIRACA" (-22.932 : ℚ) (-52.6906 : ℚ),
  CityEntry.mk "PR" "GUAMIRANGA" (-25.1912 : ℚ) (-50.8021 : ℚ),
  CityEntry.mk "PR" "GUAPIRAMA" (-23.5203 : ℚ) (-50.0407 : ℚ),
  CityEntry.mk "PR" "GUAPOREMA" (-23.3402 : ℚ) (-52.7786 : ℚ),
  CityEntry.mk "PR" "GUARACI" (-22.9694 : ℚ) (-51.6504 : ℚ),
  CityEntry.mk "PR" "GUARANIACU" (-25.0968 : ℚ) (-52.8755 : ℚ),
  CityEntry.mk "PR" "GUARAPUAVA" (-25.3902 : ℚ) (-51.4623 : ℚ),
  CityEntry.mk "PR" "GUARATUBA" (-25.8817 : ℚ) (-48.5752 : ℚ),
  CityEntry.mk "PR" "HONORIO SERPA" (-26.139 : ℚ) (-52.3848 : ℚ),
  CityEntry.mk "PR" "IBAITI" (-23.8478 : ℚ) (-50.1932 : ℚ),
  CityEntry.mk "PR" "IBEMA" (-25.1193 : ℚ) (-53.0072 : ℚ),
  CityEntry.mk "PR" "IBIPORA" (-23.2659 : ℚ) (-51.0522 : ℚ),
  CityEntry.mk "PR" "ICARAIMA" (-23.3944 : ℚ) (-53.615 : ℚ),
  CityEntry.mk "PR" "IGUARACU" (-23.1949 : ℚ) (-51.8256 : ℚ),
  CityEntry.mk "PR" "IGUATU" (-24.7153 : ℚ) (-53.0827 : ℚ),
  CityEntry.mk "PR" "IMBAU" (-24.448 : ℚ) (-50.7533 : ℚ),
  CityEntry.mk "PR" "IMBITUVA" (-25.2285 : ℚ) (-50.5989 : ℚ),
  CityEntry.mk "PR" "INACIO MARTINS" (-25.5704 : ℚ) (-51.0769 : ℚ),
  CityEntry.mk "PR" "INAJA" (-22.7509 : ℚ) (-52.1995 : ℚ),
  CityEntry.mk "PR" "IPIRANGA" (-25.0238 : ℚ) (-50.5794 : ℚ),
  CityEntry.mk "PR" "IPORA" (-24.0083 : ℚ) (-53.706 : ℚ),
  CityEntry.mk "PR" "IRATI" (-25.4697 : ℚ) (-50.6493 : ℚ),
  CityEntry.mk "PR" "IRETAMA" (-24.4253 : ℚ) (-52.1012 : ℚ),
  CityEntry.mk "PR" "ITAGUAJE" (-22.6183 : ℚ) (-51.9674 : ℚ),
  CityEntry.mk "PR" "ITAIPULANDIA" (-25.1366 : ℚ) (-54.3001 : ℚ),
  CityEntry.mk "PR" "ITAMBARACA" (-23.0181 : ℚ) (-50.4097 : ℚ),
  CityEntry.mk "PR" "ITAMBE" (-23.6601 : ℚ) (-51.9912 : ℚ),
  CityEntry.mk "PR" "ITAPEJARA DO OESTE" (-25.9661 : ℚ) (-52.8147 : ℚ),
  CityEntry.mk "PR" "ITAPERUCU" (-25.2193 : ℚ) (-49.3454 : ℚ),
  CityEntry.mk "PR" "IVAI" (-25.0067 : ℚ) (-50.857 : ℚ),
  CityEntry.mk "PR" "IVAIPORA" (-24.2485 : ℚ) (-51.6754 : ℚ),
  CityEntry.mk "PR" "IVATE" (-23.4072 : ℚ) (-53.3687 : ℚ),
  CityEntry.mk "PR" "JABOTI" (-23.7435 : ℚ) (-50.0729 : ℚ),
  CityEntry.mk "PR" "JACAREZINHO" (-23.1591 : ℚ) (-49.9739 : ℚ),
  CityEntry.mk "PR" "JAGUAPITA" (-23.1104 : ℚ) (-51.5342 : ℚ),
  CityEntry.mk "PR" "JAGUARIAIVA" (-24.2439 : ℚ) (-49.7066 : ℚ),
  CityEntry.mk "PR" "JANDAIA DO SUL" (-23.6011 : ℚ) (-51.6448 : ℚ),
  CityEntry.mk "PR" "JANIOPOLIS" (-24.1401 : ℚ) (-52.7784 : ℚ),
  CityEntry.mk "PR" "JAPIRA" (-23.8142 : ℚ) (-50.1422 : ℚ),
  CityEntry.mk "PR" "JAPURA" (-23.4693 : ℚ) (-52.5557 : ℚ),
  CityEntry.mk "PR" "JARDIM ALEGRE" (-24.1809 : ℚ) (-51.6902 : ℚ),
  CityEntry.mk "PR" "JARDIM OLINDA" (-22.5523 : ℚ) (-52.0503 : ℚ),
  CityEntry.mk "PR" "JATAIZINHO" (-23.2578 : ℚ) (-50.9777 : ℚ),
  CityEntry.mk "PR" "JESUITAS" (-24.3839 : ℚ) (-53.3849 : ℚ),
  CityEntry.mk "PR" "JOAQUIM TAVORA" (-23.4987 : ℚ) (-49.909 : ℚ),
  CityEntry.mk "PR" "JUNDIAI DO SUL" (-23.4357 : ℚ) (-50.2496 : ℚ),
  CityEntry.mk "PR" "JURANDA" (-24.4209 : ℚ) (-52.8413 : ℚ),
  CityEntry.mk "PR" "JUSSARA" (-23.6219 : ℚ) (-52.4693 : ℚ),
  CityEntry.mk "PR" "KALORE" (-23.8188 : ℚ) (-51.6687 : ℚ),
  CityEntry.mk "PR" "LAPA" (-25.7671 : ℚ) (-49.7168 : ℚ),
  CityEntry.mk "PR" "LARANJAL" (-24.8862 : ℚ) (-52.47 : ℚ),
  CityEntry.mk "PR" "LARANJEIRAS DO SUL" (-25.4077 : ℚ) (-52.4109 : ℚ),
  CityEntry.mk "PR" "LEOPOLIS" (-23.0818 : ℚ) (-50.7511 : ℚ),
  CityEntry.mk "PR" "LIDIANOPOLIS" (-24.11 : ℚ) (-51.6506 : ℚ),
  CityEntry.mk "PR" "LINDOESTE" (-25.2596 : ℚ) (-53.5733 : ℚ),
  CityEntry.mk "PR" "LOANDA" (-22.9232 : ℚ) (-53.1362 : ℚ),
  CityEntry.mk "PR" "LOBATO" (-23.0058 : ℚ) (-51.9524 : ℚ),
  CityEntry.mk "PR" "LONDRINA" (-23.304 : ℚ) (-51.1691 : ℚ),
  CityEntry.mk "PR" "LUIZIANA" (-24.2853 : ℚ) (-52.269 : ℚ),
  CityEntry.mk "PR" "LUNARDELLI" (-24.0821 : ℚ) (-51.7368 : ℚ),
  CityEntry.mk "PR" "LUPIONOPOLIS" (-22.755 : ℚ) (-51.6601 : ℚ),
  CityEntry.mk "PR" "MALLET" (-25.8806 : ℚ) (-50.8173 : ℚ),
  CityEntry.mk "PR" "MAMBORE" (-24.317 : ℚ) (-52.5271 : ℚ),
  CityEntry.mk "PR" "MANDAGUACU" (-23.3458 : ℚ) (-52.0944 : ℚ),
  CityEntry.mk "PR" "MANDAGUARI" (-23.5446 : ℚ) (-51.671 : ℚ),
  CityEntry.mk "PR" "MANDIRITUBA" (-25.777 : ℚ) (-49.3282 : ℚ),
  CityEntry.mk "PR" "MANFRINOPOLIS" (-26.1441 : ℚ) (-53.3113 : ℚ),
  CityEntry.mk "PR" "MANGUEIRINHA" (-25.9421 : ℚ) (-52.1743 : ℚ),
  CityEntry.mk "PR" "MANOEL RIBAS" (-24.5144 : ℚ) (-51.6658 : ℚ),
  CityEntry.mk "PR" "MARECHAL CANDIDO RONDON" (-24.557 : ℚ) (-54.0571 : ℚ),
  CityEntry.mk "PR" "MARIA HELENA" (-23.6158 : ℚ) (-53.2053 : ℚ),
  CityEntry.mk "PR" "MARIALVA" (-23.4843 : ℚ) (-51.7928 : ℚ),
  CityEntry.mk "PR" "MARILANDIA DO SUL" (-23.7425 : ℚ) (-51.3137 : ℚ),
  CityEntry.mk "PR" "MARILENA" (-22.7336 : ℚ) (-53.0402 : ℚ),
  CityEntry.mk "PR" "MARILUZ" (-24.0089 : ℚ) (-53.1432 : ℚ),
  CityEntry.mk "PR" "MARINGA" (-23.4205 : ℚ) (-51.9333 : ℚ),
  CityEntry.mk "PR" "MARIOPOLIS" (-26.355 : ℚ) (-52.5532 : ℚ),
  CityEntry.mk "PR" "MARIPA" (-24.42 : ℚ) (-53.8286 : ℚ),
  CityEntry.mk "PR" "MARMELEIRO" (-26.1472 : ℚ) (-53.0267 : ℚ),
  CityEntry.mk "PR" "MARQUINHO" (-25.112 : ℚ) (-52.2497 : ℚ),
  CityEntry.mk "PR" "MARUMBI" (-23.7058 : ℚ) (-51.6404 : ℚ),
  CityEntry.mk "PR" "MATELANDIA" (-25.2496 : ℚ) (-53.9935 : ℚ),
  CityEntry.mk "PR" "MATINHOS" (-25.8237 : ℚ) (-48.549 : ℚ),
  CityEntry.mk "PR" "MATO RICO" (-24.6995 : ℚ) (-52.1454 : ℚ),
  CityEntry.mk "PR" "MAUA DA SERRA" (-23.8988 : ℚ) (-51.2277 : ℚ),
  CityEntry.mk "PR" "MEDIANEIRA" (-25.2977 : ℚ) (-54.0943 : ℚ),
  CityEntry.mk "PR" "MERCEDES" (-24.4538 : ℚ) (-54.1618 : ℚ),
  CityEntry.mk "PR" "MISSAL" (-25.0919 : ℚ) (-54.2477 : ℚ),
  CityEntry.mk "PR" "MOREIRA SALES" (-24.0509 : ℚ) (-53.0102 : ℚ),
  CityEntry.mk "PR" "MORRETES" (-25.4744 : ℚ) (-48.8345 : ℚ),
  CityEntry.mk "PR" "MUNHOZ DE MELLO" (-23.1477 : ℚ) (-51.7739 : ℚ),
  CityEntry.mk "PR" "NOSSA SENHORA DAS GRACAS" (-22.9129 : ℚ) (-51.7978 : ℚ),
  CityEntry.mk "PR" "NOVA AMERICA DA COLINA" (-23.3308 : ℚ) (-50.7168 : ℚ),
  CityEntry.mk "PR" "NOVA AURORA" (-24.5289 : ℚ) (-53.2575 : ℚ),
  CityEntry.mk "PR" "NOVA CANTU" (-24.6723 : ℚ) (-52.5661 : ℚ),
  CityEntry.mk "PR" "NOVA ESPERANCA" (-23.182 : ℚ) (-52.2031 : ℚ),
  CityEntry.mk "PR" "NOVA ESPERANCA DO SUDOESTE" (-25.9004 : ℚ) (-53.2618 : ℚ),
  CityEntry.mk "PR" "NOVA FATIMA" (-23.4324 : ℚ) (-50.5665 : ℚ),
  CityEntry.mk "PR" "NOVA LARANJEIRAS" (-25.3054 : ℚ) (-52.5447 : ℚ),
  CityEntry.mk "PR" "NOVA LONDRINA" (-22.7639 : ℚ) (-52.9868 : ℚ),
  CityEntry.mk "PR" "NOVA OLIMPIA" (-23.4703 : ℚ) (-53.0898 : ℚ),
  CityEntry.mk "PR" "NOVA PRATA DO IGUACU" (-25.6309 : ℚ) (-53.3469 : ℚ),
  CityEntry.mk "PR" "NOVA SANTA BARBARA" (-23.5865 : ℚ) (-50.7598 : ℚ),
  CityEntry.mk "PR" "NOVA SANTA ROSA" (-24.4693 : ℚ) (-53.9552 : ℚ),
  CityEntry.mk "PR" "NOVA TEBAS" (-24.438 : ℚ) (-51.9454 : ℚ),
  CityEntry.mk "PR" "NOVO ITACOLOMI" (-23.7631 : ℚ) (-51.5079 : ℚ),
  CityEntry.mk "PR" "ORTIGUEIRA" (-24.2058 : ℚ) (-50.9185 : ℚ),
  CityEntry.mk "PR" "OURIZONA" (-23.4053 : ℚ) (-52.1964 : ℚ),
  CityEntry.mk "PR" "PAICANDU" (-23.4555 : ℚ) (-52.046 : ℚ),
  CityEntry.mk "PR" "PALMAS" (-26.4839 : ℚ) (-51.9888 : ℚ),
  CityEntry.mk "PR" "PALMEIRA" (-25.4257 : ℚ) (-50.007 : ℚ),
  CityEntry.mk "PR" "PALMITAL" (-24.8853 : ℚ) (-52.2029 : ℚ),
  CityEntry.mk "PR" "PALOTINA" (-24.2868 : ℚ) (-53.8404 : ℚ),
  CityEntry.mk "PR" "PARAISO DO NORTE" (-23.2824 : ℚ) (-52.6054 : ℚ),
  CityEntry.mk "PR" "PARANACITY" (-22.9297 : ℚ) (-52.1549 : ℚ),
  CityEntry.mk "PR" "PARANAGUA" (-25.5161 : ℚ) (-48.5225 : ℚ),
  CityEntry.mk "PR" "PARANAPOEMA" (-22.6412 : ℚ) (-52.0905 : ℚ),
  CityEntry.mk "PR" "PARANAVAI" (-23.0816 : ℚ) (-52.4617 : ℚ),
  CityEntry.mk "PR" "PATO BRAGADO" (-24.6271 : ℚ) (-54.2265 : ℚ),
  CityEntry.mk "PR" "PATO BRANCO" (-26.2292 : ℚ) (-52.6706 : ℚ),
  CityEntry.mk "PR" "PAULA FREITAS" (-26.2105 : ℚ) (-50.931 : ℚ),
  CityEntry.mk "PR" "PAULO FRONTIN" (-26.0466 : ℚ) (-50.8304 : ℚ),
  CityEntry.mk "PR" "PEABIRU" (-23.914 : ℚ) (-52.3431 : ℚ),
  CityEntry.mk "PR" "PEROBAL" (-23.8949 : ℚ) (-53.4098 : ℚ)
]

/-- Gazetteer rows 250 to 499 of `RAW_CITIES_CSV` (`STATE,CITY,LAT,LNG`). -/
def rawCities1 : List CityEntry := [
  CityEntry.mk "PR" "PEROLA" (-23.8039 : ℚ) (-53.6834 : ℚ),
  CityEntry.mk "PR" "PEROLA DO OESTE" (-25.759 : ℚ) (-53.8055 : ℚ),
  CityEntry.mk "PR" "PIEN" (-26.0965 : ℚ) (-49.4336 : ℚ),
  CityEntry.mk "PR" "PINHAIS" (-25.4429 : ℚ) (-49.1927 : ℚ),
  CityEntry.mk "PR" "PINHALAO" (-23.7982 : ℚ) (-50.0536 : ℚ),
  CityEntry.mk "PR" "PINHAO" (-25.6944 : ℚ) (-51.6536 : ℚ),
  CityEntry.mk "PR" "PIRAI DO SUL" (-24.5306 : ℚ) (-49.9433 : ℚ),
  CityEntry.mk "PR" "PIRAQUARA" (-25.4422 : ℚ) (-49.0624 : ℚ),
  CityEntry.mk "PR" "PITANGA" (-24.7588 : ℚ) (-51.7596 : ℚ),
  CityEntry.mk "PR" "PITANGUEIRAS" (-23.2281 : ℚ) (-51.5873 : ℚ),
  CityEntry.mk "PR" "PLANALTINA DO PARANA" (-23.0101 : ℚ) (-52.9162 : ℚ),
  CityEntry.mk "PR" "PLANALTO" (-25.7211 : ℚ) (-53.7642 : ℚ),
  CityEntry.mk "PR" "PONTA GROSSA" (-25.0916 : ℚ) (-50.1668 : ℚ),
  CityEntry.mk "PR" "PONTAL DO PARANA" (-25.6735 : ℚ) (-48.5111 : ℚ),
  CityEntry.mk "PR" "PORECATU" (-22.7537 : ℚ) (-51.3795 : ℚ),
  CityEntry.mk "PR" "PORTO AMAZONAS" (-25.54 : ℚ) (-49.8946 : ℚ),
  CityEntry.mk "PR" "PORTO BARREIRO" (-25.5477 : ℚ) (-52.4067 : ℚ),
  CityEntry.mk "PR" "PORTO RICO" (-22.7747 : ℚ) (-53.2677 : ℚ),
  CityEntry.mk "PR" "PORTO VITORIA" (-26.1674 : ℚ) (-51.231 : ℚ),
  CityEntry.mk "PR" "PRADO FERREIRA" (-23.0357 : ℚ) (-51.4429 : ℚ),
  CityEntry.mk "PR" "PRANCHITA" (-26.0209 : ℚ) (-53.7397 : ℚ),
  CityEntry.mk "PR" "PRESIDENTE CASTELO BRANCO" (-23.2782 : ℚ) (-52.1536 : ℚ),
  CityEntry.mk "PR" "PRIMEIRO DE MAIO" (-22.8517 : ℚ) (-51.0293 : ℚ),
  CityEntry.mk "PR" "PRUDENTOPOLIS" (-25.2111 : ℚ) (-50.9754 : ℚ),
  CityEntry.mk "PR" "QUARTO CENTENARIO" (-24.2775 : ℚ) (-53.0759 : ℚ),
  CityEntry.mk "PR" "QUATIGUA" (-23.5671 : ℚ) (-49.916 : ℚ),
  CityEntry.mk "PR" "QUATRO BARRAS" (-25.3673 : ℚ) (-49.0763 : ℚ),
  CityEntry.mk "PR" "QUATRO PONTES" (-24.5752 : ℚ) (-53.9759 : ℚ),
  CityEntry.mk "PR" "QUEDAS DO IGUACU" (-25.4492 : ℚ) (-52.9102 : ℚ),
  CityEntry.mk "PR" "QUERENCIA DO NORTE" (-23.0838 : ℚ) (-53.483 : ℚ),
  CityEntry.mk "PR" "QUINTA DO SOL" (-23.8533 : ℚ) (-52.1309 : ℚ),
  CityEntry.mk "PR" "QUITANDINHA" (-25.8734 : ℚ) (-49.4973 : ℚ),
  CityEntry.mk "PR" "RAMILANDIA" (-25.1195 : ℚ) (-54.023 : ℚ),
  CityEntry.mk "PR" "RANCHO ALEGRE" (-23.0676 : ℚ) (-50.9145 : ℚ),
  CityEntry.mk "PR" "RANCHO ALEGRE D OESTE" (-24.2778 : ℚ) (-53.075 : ℚ),
  CityEntry.mk "PR" "REALEZA" (-25.7711 : ℚ) (-53.526 : ℚ),
  CityEntry.mk "PR" "REBOUCAS" (-25.6232 : ℚ) (-50.6877 : ℚ),
  CityEntry.mk "PR" "RENASCENCA" (-26.1588 : ℚ) (-52.9703 : ℚ),
  CityEntry.mk "PR" "RESERVA" (-24.6492 : ℚ) (-50.8466 : ℚ),
  CityEntry.mk "PR" "RESERVA DO IGUACU" (-25.8319 : ℚ) (-52.0272 : ℚ),
  CityEntry.mk "PR" "RIBEIRAO CLARO" (-23.1941 : ℚ) (-49.7597 : ℚ),
  CityEntry.mk "PR" "RIBEIRAO DO PINHAL" (-23.4091 : ℚ) (-50.3601 : ℚ),
  CityEntry.mk "PR" "RIO AZUL" (-25.7306 : ℚ) (-50.7985 : ℚ),
  CityEntry.mk "PR" "RIO BOM" (-23.7606 : ℚ) (-51.4122 : ℚ),
  CityEntry.mk "PR" "RIO BONITO DO IGUACU" (-25.4874 : ℚ) (-52.5292 : ℚ),
  CityEntry.mk "PR" "RIO BRANCO DO IVAI" (-24.3244 : ℚ) (-51.3187 : ℚ),
  CityEntry.mk "PR" "RIO BRANCO DO SUL" (-25.1892 : ℚ) (-49.3115 : ℚ),
  CityEntry.mk "PR" "RIO NEGRO" (-26.095 : ℚ) (-49.7982 : ℚ),
  CityEntry.mk "PR" "ROLANDIA" (-23.3101 : ℚ) (-51.3659 : ℚ),
  CityEntry.mk "PR" "RONCADOR" (-24.5958 : ℚ) (-52.2716 : ℚ),
  CityEntry.mk "PR" "RONDON" (-23.412 : ℚ) (-52.7659 : ℚ),
  CityEntry.mk "PR" "ROSARIO DO IVAI" (-24.2682 : ℚ) (-51.272 : ℚ),
  CityEntry.mk "PR" "SABAUDIA" (-23.3155 : ℚ) (-51.555 : ℚ),
  CityEntry.mk "PR" "SALGADO FILHO" (-26.1777 : ℚ) (-53.3631 : ℚ),
  CityEntry.mk "PR" "SALTO DO ITARARE" (-23.6074 : ℚ) (-49.6354 : ℚ),
  CityEntry.mk "PR" "SALTO DO LONTRA" (-25.7813 : ℚ) (-53.3135 : ℚ),
  CityEntry.mk "PR" "SANTA AMELIA" (-23.2654 : ℚ) (-50.4288 : ℚ),
  CityEntry.mk "PR" "SANTA CECILIA DO PAVAO" (-23.5201 : ℚ) (-50.7835 : ℚ),
  CityEntry.mk "PR" "SANTA CRUZ DE MONTE CASTELO" (-22.9582 : ℚ) (-53.2949 : ℚ),
  CityEntry.mk "PR" "SANTA FE" (-23.04 : ℚ) (-51.808 : ℚ),
  CityEntry.mk "PR" "SANTA HELENA" (-24.8585 : ℚ) (-54.336 : ℚ),
  CityEntry.mk "PR" "SANTA ISABEL DO IVAI" (-23.0025 : ℚ) (-53.1989 : ℚ),
  CityEntry.mk "PR" "SANTA IZABEL DO OESTE" (-25.8217 : ℚ) (-53.4801 : ℚ),
  CityEntry.mk "PR" "SANTA LUCIA" (-25.4104 : ℚ) (-53.5638 : ℚ),
  CityEntry.mk "PR" "SANTA MARIA DO OESTE" (-24.9377 : ℚ) (-51.8696 : ℚ),
  CityEntry.mk "PR" "SANTA MARIANA" (-23.1465 : ℚ) (-50.5167 : ℚ),
  CityEntry.mk "PR" "SANTA MONICA" (-23.108 : ℚ) (-53.1103 : ℚ),
  CityEntry.mk "PR" "SANTA TEREZA DO OESTE" (-25.0543 : ℚ) (-53.6274 : ℚ),
  CityEntry.mk "PR" "SANTA TEREZINHA DE ITAIPU" (-25.4391 : ℚ) (-54.402 : ℚ),
  CityEntry.mk "PR" "SANTANA DO ITARARE" (-23.7587 : ℚ) (-49.6293 : ℚ),
  CityEntry.mk "PR" "SANTO ANTONIO DA PLATINA" (-23.2959 : ℚ) (-50.0815 : ℚ),
  CityEntry.mk "PR" "SANTO ANTONIO DO CAIUA" (-22.7351 : ℚ) (-52.344 : ℚ),
  CityEntry.mk "PR" "SANTO ANTONIO DO PARAISO" (-23.4969 : ℚ) (-50.6455 : ℚ),
  CityEntry.mk "PR" "SANTO ANTONIO DO SUDOESTE" (-26.0737 : ℚ) (-53.7251 : ℚ),
  CityEntry.mk "PR" "SANTO INACIO" (-22.6957 : ℚ) (-51.7969 : ℚ),
  CityEntry.mk "PR" "SAO CARLOS DO IVAI" (-23.3158 : ℚ) (-52.4761 : ℚ),
  CityEntry.mk "PR" "SAO JERONIMO DA SERRA" (-23.7218 : ℚ) (-50.7475 : ℚ),
  CityEntry.mk "PR" "SAO JOAO" (-25.8214 : ℚ) (-52.7252 : ℚ),
  CityEntry.mk "PR" "SAO JOAO DO CAIUA" (-22.8535 : ℚ) (-52.3411 : ℚ),
  CityEntry.mk "PR" "SAO JOAO DO IVAI" (-23.9833 : ℚ) (-51.8215 : ℚ),
  CityEntry.mk "PR" "SAO JOAO DO TRIUNFO" (-25.683 : ℚ) (-50.2949 : ℚ),
  CityEntry.mk "PR" "SAO JORGE D OESTE" (-25.4389 : ℚ) (-53.5269 : ℚ),
  CityEntry.mk "PR" "SAO JORGE DO IVAI" (-23.4336 : ℚ) (-52.2929 : ℚ),
  CityEntry.mk "PR" "SAO JORGE DO PATROCINIO" (-23.7647 : ℚ) (-53.8823 : ℚ),
  CityEntry.mk "PR" "SAO JOSE DA BOA VISTA" (-23.9122 : ℚ) (-49.6577 : ℚ),
  CityEntry.mk "PR" "SAO JOSE DOS PINHAIS" (-25.5313 : ℚ) (-49.2031 : ℚ),
  CityEntry.mk "PR" "SAO MATEUS DO SUL" (-25.8677 : ℚ) (-50.384 : ℚ),
  CityEntry.mk "PR" "SAO MIGUEL DO IGUACU" (-25.3492 : ℚ) (-54.2405 : ℚ),
  CityEntry.mk "PR" "SAO PEDRO DO IGUACU" (-24.9373 : ℚ) (-53.8521 : ℚ),
  CityEntry.mk "PR" "SAO PEDRO DO IVAI" (-23.8634 : ℚ) (-51.8568 : ℚ),
  CityEntry.mk "PR" "SAO SEBASTIAO DA AMOREIRA" (-23.4656 : ℚ) (-50.7625 : ℚ),
  CityEntry.mk "PR" "SAPOPEMA" (-23.9078 : ℚ) (-50.5801 : ℚ),
  CityEntry.mk "PR" "SARANDI" (-23.4441 : ℚ) (-51.876 : ℚ),
  CityEntry.mk "PR" "SAUDADE DO IGUACU" (-25.6917 : ℚ) (-52.6184 : ℚ),
  CityEntry.mk "PR" "SENGES" (-24.1129 : ℚ) (-49.4616 : ℚ),
  CityEntry.mk "PR" "SERRANOPOLIS DO IGUACU" (-25.3799 : ℚ) (-54.0518 : ℚ),
  CityEntry.mk "PR" "SERTANEJA" (-23.0361 : ℚ) (-50.8317 : ℚ),
  CityEntry.mk "PR" "SERTANOPOLIS" (-23.0571 : ℚ) (-51.0399 : ℚ),
  CityEntry.mk "PR" "SIQUEIRA CAMPOS" (-23.6875 : ℚ) (-49.8304 : ℚ),
  CityEntry.mk "PR" "SULINA" (-25.7066 : ℚ) (-52.7299 : ℚ),
  CityEntry.mk "PR" "TAMARANA" (-23.7204 : ℚ) (-51.0991 : ℚ),
  CityEntry.mk "PR" "TAMBOARA" (-23.2036 : ℚ) (-52.4743 : ℚ),
  CityEntry.mk "PR" "TAPEJARA" (-23.7315 : ℚ) (-52.8735 : ℚ),
  CityEntry.mk "PR" "TAPIRA" (-23.3193 : ℚ) (-53.0684 : ℚ),
  CityEntry.mk "PR" "TEIXEIRA SOARES" (-25.3701 : ℚ) (-50.4571 : ℚ),
  CityEntry.mk "PR" "TELEMACO BORBA" (-24.3245 : ℚ) (-50.6176 : ℚ),
  CityEntry.mk "PR" "TERRA BOA" (-23.7683 : ℚ) (-52.447 : ℚ),
  CityEntry.mk "PR" "TERRA RICA" (-22.7111 : ℚ) (-52.6188 : ℚ),
  CityEntry.mk "PR" "TERRA ROXA" (-24.1575 : ℚ) (-54.0988 : ℚ),
  CityEntry.mk "PR" "TIBAGI" (-24.5153 : ℚ) (-50.4176 : ℚ),
  CityEntry.mk "PR" "TIJUCAS DO SUL" (-25.9311 : ℚ) (-49.195 : ℚ),
  CityEntry.mk "PR" "TOLEDO" (-24.7246 : ℚ) (-53.7412 : ℚ),
  CityEntry.mk "PR" "TOMAZINA" (-23.7796 : ℚ) (-49.9499 : ℚ),
  CityEntry.mk "PR" "TRES BARRAS DO PARANA" (-25.4185 : ℚ) (-53.1833 : ℚ),
  CityEntry.mk "PR" "TUNAS DO PARANA" (-24.9731 : ℚ) (-49.0879 : ℚ),
  CityEntry.mk "PR" "TUNEIRAS DO OESTE" (-23.8648 : ℚ) (-52.8769 : ℚ),
  CityEntry.mk "PR" "TUPASSI" (-24.5879 : ℚ) (-53.5105 : ℚ),
  CityEntry.mk "PR" "TURVO" (-25.0437 : ℚ) (-51.5282 : ℚ),
  CityEntry.mk "PR" "UBIRATA" (-24.5393 : ℚ) (-52.9865 : ℚ),
  CityEntry.mk "PR" "UMUARAMA" (-23.7656 : ℚ) (-53.3201 : ℚ),
  CityEntry.mk "PR" "UNIAO DA VITORIA" (-26.2273 : ℚ) (-51.0873 : ℚ),
  CityEntry.mk "PR" "UNIFLOR" (-23.0868 : ℚ) (-52.1573 : ℚ),
  CityEntry.mk "PR" "URAI" (-23.2 : ℚ) (-50.7939 : ℚ),
  CityEntry.mk "PR" "VENTANIA" (-24.2458 : ℚ) (-50.2376 : ℚ),
  CityEntry.mk "PR" "VERA CRUZ DO OESTE" (-25.0577 : ℚ) (-53.8771 : ℚ),
  CityEntry.mk "PR" "VERE" (-25.8772 : ℚ) (-52.9051 : ℚ),
  CityEntry.mk "PR" "VIRMOND" (-25.3829 : ℚ) (-52.1987 : ℚ),
  CityEntry.mk "PR" "VITORINO" (-26.2683 : ℚ) (-52.7843 : ℚ),
  CityEntry.mk "PR" "WENCESLAU BRAZ" (-23.8742 : ℚ) (-49.8032 : ℚ),
  CityEntry.mk "PR" "XAMBRE" (-23.7364 : ℚ) (-53.4884 : ℚ),
  CityEntry.mk "RS" "ACEGUA" (-31.8665 : ℚ) (-54.1615 : ℚ),
  CityEntry.mk "RS" "AGUDO" (-29.6447 : ℚ) (-53.2515 : ℚ),
  CityEntry.mk "RS" "AJURICABA" (-28.2342 : ℚ) (-53.7757 : ℚ),
  CityEntry.mk "RS" "ALECRIM" (-27.6579 : ℚ) (-54.7649 : ℚ),
  CityEntry.mk "RS" "ALEGRETE" (-29.7902 : ℚ) (-55.7949 : ℚ),
  CityEntry.mk "RS" "ALEGRIA" (-27.8345 : ℚ) (-54.0557 : ℚ),
  CityEntry.mk "RS" "ALPESTRE" (-27.2502 : ℚ) (-53.0341 : ℚ),
  CityEntry.mk "RS" "ALTO FELIZ" (-29.3919 : ℚ) (-51.3123 : ℚ),
  CityEntry.mk "RS" "ALVORADA" (-29.9914 : ℚ) (-51.0809 : ℚ),
  CityEntry.mk "RS" "AMARAL FERRADOR" (-30.8756 : ℚ) (-52.2509 : ℚ),
  CityEntry.mk "RS" "AMETISTA DO SUL" (-27.3607 : ℚ) (-53.183 : ℚ),
  CityEntry.mk "RS" "ANTA GORDA" (-28.9698 : ℚ) (-52.0102 : ℚ),
  CityEntry.mk "RS" "ANTONIO PRADO" (-28.8565 : ℚ) (-51.2883 : ℚ),
  CityEntry.mk "RS" "ARAMBARE" (-30.9092 : ℚ) (-51.5046 : ℚ),
  CityEntry.mk "RS" "ARARICA" (-29.6168 : ℚ) (-50.9291 : ℚ),
  CityEntry.mk "RS" "ARATIBA" (-27.3978 : ℚ) (-52.2975 : ℚ),
  CityEntry.mk "RS" "ARROIO DO MEIO" (-29.4014 : ℚ) (-51.9557 : ℚ),
  CityEntry.mk "RS" "ARROIO DO SAL" (-29.5439 : ℚ) (-49.8895 : ℚ),
  CityEntry.mk "RS" "ARROIO DO TIGRE" (-29.3348 : ℚ) (-53.0966 : ℚ),
  CityEntry.mk "RS" "ARROIO DOS RATOS" (-30.0875 : ℚ) (-51.7275 : ℚ),
  CityEntry.mk "RS" "ARVOREZINHA" (-28.8737 : ℚ) (-52.1781 : ℚ),
  CityEntry.mk "RS" "AUGUSTO PESTANA" (-28.5172 : ℚ) (-53.9883 : ℚ),
  CityEntry.mk "RS" "AUREA" (-27.6936 : ℚ) (-52.0505 : ℚ),
  CityEntry.mk "RS" "BAGE" (-31.3297 : ℚ) (-54.0999 : ℚ),
  CityEntry.mk "RS" "BALNEARIO PINHAL" (-30.2419 : ℚ) (-50.2337 : ℚ),
  CityEntry.mk "RS" "BARAO" (-29.3725 : ℚ) (-51.4949 : ℚ),
  CityEntry.mk "RS" "BARAO DE COTEGIPE" (-27.6208 : ℚ) (-52.3798 : ℚ),
  CityEntry.mk "RS" "BARAO DO TRIUNFO" (-30.3891 : ℚ) (-51.7384 : ℚ),
  CityEntry.mk "RS" "BARRA DO GUARITA" (-27.1927 : ℚ) (-53.7109 : ℚ),
  CityEntry.mk "RS" "BARRA DO QUARAI" (-30.2029 : ℚ) (-57.5497 : ℚ),
  CityEntry.mk "RS" "BARRA DO RIBEIRO" (-30.2939 : ℚ) (-51.3014 : ℚ),
  CityEntry.mk "RS" "BARRA FUNDA" (-27.9205 : ℚ) (-53.0391 : ℚ),
  CityEntry.mk "RS" "BARROS CASSAL" (-29.0947 : ℚ) (-52.5836 : ℚ),
  CityEntry.mk "RS" "BENTO GONCALVES" (-29.1662 : ℚ) (-51.5165 : ℚ),
  CityEntry.mk "RS" "BOA VISTA DAS MISSOES" (-27.6671 : ℚ) (-53.3102 : ℚ),
  CityEntry.mk "RS" "BOA VISTA DO BURICA" (-27.6693 : ℚ) (-54.1082 : ℚ),
  CityEntry.mk "RS" "BOM PRINCIPIO" (-29.4856 : ℚ) (-51.3548 : ℚ),
  CityEntry.mk "RS" "BOM RETIRO DO SUL" (-29.6071 : ℚ) (-51.9456 : ℚ),
  CityEntry.mk "RS" "BOQUEIRAO DO LEAO" (-29.3046 : ℚ) (-52.4284 : ℚ),
  CityEntry.mk "RS" "BOSSOROCA" (-28.7291 : ℚ) (-54.9035 : ℚ),
  CityEntry.mk "RS" "BRAGA" (-27.6173 : ℚ) (-53.7405 : ℚ),
  CityEntry.mk "RS" "BUTIA" (-30.1179 : ℚ) (-51.9601 : ℚ),
  CityEntry.mk "RS" "CACAPAVA DO SUL" (-30.5144 : ℚ) (-53.4827 : ℚ),
  CityEntry.mk "RS" "CACEQUI" (-29.8883 : ℚ) (-54.822 : ℚ),
  CityEntry.mk "RS" "CACHOEIRA DO SUL" (-30.033 : ℚ) (-52.8928 : ℚ),
  CityEntry.mk "RS" "CACHOEIRINHA" (-29.9472 : ℚ) (-51.1016 : ℚ),
  CityEntry.mk "RS" "CACIQUE DOBLE" (-27.767 : ℚ) (-51.6597 : ℚ),
  CityEntry.mk "RS" "CAIBATE" (-28.2905 : ℚ) (-54.6454 : ℚ),
  CityEntry.mk "RS" "CAICARA" (-27.2791 : ℚ) (-53.4257 : ℚ),
  CityEntry.mk "RS" "CAMAQUA" (-30.8489 : ℚ) (-51.8043 : ℚ),
  CityEntry.mk "RS" "CAMARGO" (-28.588 : ℚ) (-52.2003 : ℚ),
  CityEntry.mk "RS" "CAMBARA DO SUL" (-29.0474 : ℚ) (-50.1465 : ℚ),
  CityEntry.mk "RS" "CAMPESTRE DA SERRA" (-28.7926 : ℚ) (-51.0941 : ℚ),
  CityEntry.mk "RS" "CAMPINAS DO SUL" (-27.7174 : ℚ) (-52.6248 : ℚ),
  CityEntry.mk "RS" "CAMPO BOM" (-29.6747 : ℚ) (-51.0606 : ℚ),
  CityEntry.mk "RS" "CAMPO NOVO" (-27.6792 : ℚ) (-53.8052 : ℚ),
  CityEntry.mk "RS" "CAMPOS BORGES" (-28.8871 : ℚ) (-53.0008 : ℚ),
  CityEntry.mk "RS" "CANDELARIA" (-29.6684 : ℚ) (-52.7895 : ℚ),
  CityEntry.mk "RS" "CANDIDO GODOI" (-27.9515 : ℚ) (-54.7517 : ℚ),
  CityEntry.mk "RS" "CANDIOTA" (-31.5516 : ℚ) (-53.6773 : ℚ),
  CityEntry.mk "RS" "CANELA" (-29.356 : ℚ) (-50.8119 : ℚ),
  CityEntry.mk "RS" "CANGUCU" (-31.396 : ℚ) (-52.6783 : ℚ),
  CityEntry.mk "RS" "CANOAS" (-29.9128 : ℚ) (-51.1857 : ℚ),
  CityEntry.mk "RS" "CAPAO BONITO DO SUL" (-28.1254 : ℚ) (-51.3961 : ℚ),
  CityEntry.mk "RS" "CAPAO DO LEAO" (-31.7565 : ℚ) (-52.4889 : ℚ),
  CityEntry.mk "RS" "CAPITAO" (-29.2674 : ℚ) (-51.9853 : ℚ),
  CityEntry.mk "RS" "CARAA" (-29.7869 : ℚ) (-50.4316 : ℚ),
  CityEntry.mk "RS" "CARLOS BARBOSA" (-29.2969 : ℚ) (-51.5028 : ℚ),
  CityEntry.mk "RS" "CATUIPE" (-28.2554 : ℚ) (-54.0132 : ℚ),
  CityEntry.mk "RS" "CAXIAS DO SUL" (-29.1629 : ℚ) (-51.1792 : ℚ),
  CityEntry.mk "RS" "CENTENARIO" (-27.7615 : ℚ) (-51.9984 : ℚ),
  CityEntry.mk "RS" "CERRO BRANCO" (-29.657 : ℚ) (-52.9406 : ℚ),
  CityEntry.mk "RS" "CERRO GRANDE" (-27.6106 : ℚ) (-53.1672 : ℚ),
  CityEntry.mk "RS" "CERRO GRANDE DO SUL" (-30.5905 : ℚ) (-51.7418 : ℚ),
  CityEntry.mk "RS" "CERRO LARGO" (-28.1463 : ℚ) (-54.7428 : ℚ),
  CityEntry.mk "RS" "CHAPADA" (-28.0559 : ℚ) (-53.0665 : ℚ),
  CityEntry.mk "RS" "CHARQUEADAS" (-29.9625 : ℚ) (-51.6289 : ℚ),
  CityEntry.mk "RS" "CHIAPETTA" (-27.923 : ℚ) (-53.9419 : ℚ),
  CityEntry.mk "RS" "CHUI" (-33.6866 : ℚ) (-53.4594 : ℚ),
  CityEntry.mk "RS" "CHUVISCA" (-30.7504 : ℚ) (-51.9737 : ℚ),
  CityEntry.mk "RS" "CIDREIRA" (-30.1604 : ℚ) (-50.2337 : ℚ),
  CityEntry.mk "RS" "COLORADO" (-28.5258 : ℚ) (-52.9928 : ℚ),
  CityEntry.mk "RS" "CONDOR" (-28.2075 : ℚ) (-53.4905 : ℚ),
  CityEntry.mk "RS" "CONSTANTINA" (-27.732 : ℚ) (-52.9938 : ℚ),
  CityEntry.mk "RS" "COQUEIRO BAIXO" (-29.1802 : ℚ) (-52.0942 : ℚ),
  CityEntry.mk "RS" "CORONEL BARROS" (-28.3921 : ℚ) (-54.0686 : ℚ),
  CityEntry.mk "RS" "CORONEL BICACO" (-27.7197 : ℚ) (-53.7022 : ℚ),
  CityEntry.mk "RS" "COTIPORA" (-28.9891 : ℚ) (-51.6971 : ℚ),
  CityEntry.mk "RS" "CRISSIUMAL" (-27.4999 : ℚ) (-54.0994 : ℚ),
  CityEntry.mk "RS" "CRISTAL DO SUL" (-27.452 : ℚ) (-53.2422 : ℚ),
  CityEntry.mk "RS" "CRUZ ALTA" (-28.645 : ℚ) (-53.6048 : ℚ),
  CityEntry.mk "RS" "CRUZEIRO DO SUL" (-29.5148 : ℚ) (-51.9928 : ℚ),
  CityEntry.mk "RS" "DOIS IRMAOS" (-29.5836 : ℚ) (-51.0898 : ℚ),
  CityEntry.mk "RS" "DOIS IRMAOS DAS MISSOES" (-27.6621 : ℚ) (-53.5304 : ℚ),
  CityEntry.mk "RS" "DOIS LAJEADOS" (-28.983 : ℚ) (-51.8396 : ℚ),
  CityEntry.mk "RS" "DOM FELICIANO" (-30.7004 : ℚ) (-52.1026 : ℚ),
  CityEntry.mk "RS" "DOM PEDRITO" (-30.9756 : ℚ) (-54.6694 : ℚ),
  CityEntry.mk "RS" "DOM PEDRO DE ALCANTARA" (-29.3639 : ℚ) (-49.853 : ℚ),
  CityEntry.mk "RS" "DOUTOR MAURICIO CARDOSO" (-27.5103 : ℚ) (-54.3577 : ℚ),
  CityEntry.mk "RS" "ELDORADO DO SUL" (-30.0847 : ℚ) (-51.6187 : ℚ),
  CityEntry.mk "RS" "ENCANTADO" (-29.2351 : ℚ) (-51.8703 : ℚ),
  CityEntry.mk "RS" "ENCRUZILHADA DO SUL" (-30.543 : ℚ) (-52.5204 : ℚ),
  CityEntry.mk "RS" "ENTRE IJUIS" (-28.3686 : ℚ) (-54.2686 : ℚ),
  CityEntry.mk "RS" "EREBANGO" (-27.8544 : ℚ) (-52.3005 : ℚ),
  CityEntry.mk "RS" "ERECHIM" (-27.6364 : ℚ) (-52.2697 : ℚ),
  CityEntry.mk "RS" "ERNESTINA" (-28.4977 : ℚ) (-52.5836 : ℚ),
  CityEntry.mk "RS" "ERVAL GRANDE" (-27.3926 : ℚ) (-52.574 : ℚ),
  CityEntry.mk "RS" "ERVAL SECO" (-27.5443 : ℚ) (-53.5005 : ℚ),
  CityEntry.mk "RS" "ESPERANCA DO SUL" (-27.3603 : ℚ) (-53.9891 : ℚ),
  CityEntry.mk "RS" "ESPUMOSO" (-28.7286 : ℚ) (-52.8461 : ℚ),
  CityEntry.mk "RS" "ESTACAO" (-27.9135 : ℚ) (-52.2635 : ℚ),
  CityEntry.mk "RS" "ESTANCIA VELHA" (-29.6535 : ℚ) (-51.1843 : ℚ),
  CityEntry.mk "RS" "ESTEIO" (-29.852 : ℚ) (-51.1841 : ℚ),
  CityEntry.mk "RS" "ESTRELA" (-29.5002 : ℚ) (-51.9495 : ℚ),
  CityEntry.mk "RS" "EUGENIO DE CASTRO" (-28.5315 : ℚ) (-54.1506 : ℚ),
  CityEntry.mk "RS" "FARROUPILHA" (-29.2227 : ℚ) (-51.3419 : ℚ),
  CityEntry.mk "RS" "FAXINAL DO SOTURNO" (-29.5788 : ℚ) (-53.4484 : ℚ),
  CityEntry.mk "RS" "FELIZ" (-29.4527 : ℚ) (-51.3032 : ℚ),
  CityEntry.mk "RS" "FLORES DA CUNHA" (-29.0261 : ℚ) (-51.1875 : ℚ),
  CityEntry.mk "RS" "FREDERICO WESTPHALEN" (-27.3586 : ℚ) (-53.3958 : ℚ)
]

/-- Gazetteer rows 500 to 749 of `RAW_CITIES_CSV` (`STATE,CITY,LAT,LNG`). -/
def rawCities2 : List CityEntry := [
  CityEntry.mk "RS" "GARIBALDI" (-29.259 : ℚ) (-51.5352 : ℚ),
  CityEntry.mk "RS" "GAURAMA" (-27.5856 : ℚ) (-52.0915 : ℚ),
  CityEntry.mk "RS" "GENERAL CAMARA" (-29.9032 : ℚ) (-51.7612 : ℚ),
  CityEntry.mk "RS" "GETULIO VARGAS" (-27.8911 : ℚ) (-52.2294 : ℚ),
  CityEntry.mk "RS" "GIRUA" (-28.0297 : ℚ) (-54.3517 : ℚ),
  CityEntry.mk "RS" "GLORINHA" (-29.8798 : ℚ) (-50.7734 : ℚ),
  CityEntry.mk "RS" "GRAMADO" (-29.3734 : ℚ) (-50.8762 : ℚ),
  CityEntry.mk "RS" "GRAVATAI" (-29.9413 : ℚ) (-50.9869 : ℚ),
  CityEntry.mk "RS" "GUABIJU" (-28.5421 : ℚ) (-51.6948 : ℚ),
  CityEntry.mk "RS" "GUAIBA" (-30.1086 : ℚ) (-51.3233 : ℚ),
  CityEntry.mk "RS" "GUAPORE" (-28.8399 : ℚ) (-51.8895 : ℚ),
  CityEntry.mk "RS" "GUARANI DAS MISSOES" (-28.1491 : ℚ) (-54.5629 : ℚ),
  CityEntry.mk "RS" "HERVEIRAS" (-29.4552 : ℚ) (-52.6553 : ℚ),
  CityEntry.mk "RS" "HORIZONTINA" (-27.6282 : ℚ) (-54.3053 : ℚ),
  CityEntry.mk "RS" "HUMAITA" (-27.5691 : ℚ) (-53.9695 : ℚ),
  CityEntry.mk "RS" "IBIACA" (-28.0566 : ℚ) (-51.8599 : ℚ),
  CityEntry.mk "RS" "IBIRAPUITA" (-28.6247 : ℚ) (-52.5158 : ℚ),
  CityEntry.mk "RS" "IBIRUBA" (-28.6302 : ℚ) (-53.0961 : ℚ),
  CityEntry.mk "RS" "IGREJINHA" (-29.5693 : ℚ) (-50.7919 : ℚ),
  CityEntry.mk "RS" "IJUI" (-28.388 : ℚ) (-53.92 : ℚ),
  CityEntry.mk "RS" "ILOPOLIS" (-28.9282 : ℚ) (-52.1258 : ℚ),
  CityEntry.mk "RS" "IMBE" (-29.9753 : ℚ) (-50.1281 : ℚ),
  CityEntry.mk "RS" "IMIGRANTE" (-29.3508 : ℚ) (-51.7748 : ℚ),
  CityEntry.mk "RS" "INDEPENDENCIA" (-27.8354 : ℚ) (-54.1886 : ℚ),
  CityEntry.mk "RS" "IPIRANGA DO SUL" (-27.9404 : ℚ) (-52.4271 : ℚ),
  CityEntry.mk "RS" "IRAI" (-27.1951 : ℚ) (-53.2543 : ℚ),
  CityEntry.mk "RS" "ITAQUI" (-29.1311 : ℚ) (-56.5515 : ℚ),
  CityEntry.mk "RS" "ITATI" (-29.4974 : ℚ) (-50.1016 : ℚ),
  CityEntry.mk "RS" "ITATIBA DO SUL" (-27.3846 : ℚ) (-52.4538 : ℚ),
  CityEntry.mk "RS" "IVOTI" (-29.5995 : ℚ) (-51.1533 : ℚ),
  CityEntry.mk "RS" "JABOTICABA" (-27.6347 : ℚ) (-53.2762 : ℚ),
  CityEntry.mk "RS" "JACUTINGA" (-27.7291 : ℚ) (-52.5372 : ℚ),
  CityEntry.mk "RS" "JAGUARAO" (-32.5604 : ℚ) (-53.377 : ℚ),
  CityEntry.mk "RS" "JAGUARI" (-29.4936 : ℚ) (-54.703 : ℚ),
  CityEntry.mk "RS" "JAQUIRANA" (-28.8811 : ℚ) (-50.3637 : ℚ),
  CityEntry.mk "RS" "JOIA" (-28.6435 : ℚ) (-54.1141 : ℚ),
  CityEntry.mk "RS" "JULIO DE CASTILHOS" (-29.2299 : ℚ) (-53.6772 : ℚ),
  CityEntry.mk "RS" "LAGOA VERMELHA" (-28.2093 : ℚ) (-51.5248 : ℚ),
  CityEntry.mk "RS" "LAGOAO" (-29.2348 : ℚ) (-52.7997 : ℚ),
  CityEntry.mk "RS" "LAJEADO" (-29.4591 : ℚ) (-51.9644 : ℚ),
  CityEntry.mk "RS" "LAJEADO DO BUGRE" (-27.6913 : ℚ) (-53.1818 : ℚ),
  CityEntry.mk "RS" "LAVRAS DO SUL" (-30.8071 : ℚ) (-53.8931 : ℚ),
  CityEntry.mk "RS" "LINDOLFO COLLOR" (-29.5859 : ℚ) (-51.2141 : ℚ),
  CityEntry.mk "RS" "LINHA NOVA" (-29.4679 : ℚ) (-51.2003 : ℚ),
  CityEntry.mk "RS" "MACAMBARA" (-29.1445 : ℚ) (-56.0674 : ℚ),
  CityEntry.mk "RS" "MACHADINHO" (-27.5667 : ℚ) (-51.6668 : ℚ),
  CityEntry.mk "RS" "MAMPITUBA" (-29.2136 : ℚ) (-49.9311 : ℚ),
  CityEntry.mk "RS" "MANOEL VIANA" (-29.5859 : ℚ) (-55.4841 : ℚ),
  CityEntry.mk "RS" "MAQUINE" (-29.6798 : ℚ) (-50.2079 : ℚ),
  CityEntry.mk "RS" "MARAU" (-28.4498 : ℚ) (-52.1986 : ℚ),
  CityEntry.mk "RS" "MARCELINO RAMOS" (-27.4676 : ℚ) (-51.9095 : ℚ),
  CityEntry.mk "RS" "MARIANA PIMENTEL" (-30.353 : ℚ) (-51.5803 : ℚ),
  CityEntry.mk "RS" "MARIANO MORO" (-27.3568 : ℚ) (-52.1467 : ℚ),
  CityEntry.mk "RS" "MARQUES DE SOUZA" (-29.3311 : ℚ) (-52.0973 : ℚ),
  CityEntry.mk "RS" "MATO LEITAO" (-29.5285 : ℚ) (-52.1278 : ℚ),
  CityEntry.mk "RS" "MAXIMILIANO DE ALMEIDA" (-27.6325 : ℚ) (-51.802 : ℚ),
  CityEntry.mk "RS" "MINAS DO LEAO" (-30.1346 : ℚ) (-52.0423 : ℚ),
  CityEntry.mk "RS" "MIRAGUAI" (-27.497 : ℚ) (-53.6891 : ℚ),
  CityEntry.mk "RS" "MONTENEGRO" (-29.6824 : ℚ) (-51.4679 : ℚ),
  CityEntry.mk "RS" "MORRO REUTER" (-29.5379 : ℚ) (-51.0811 : ℚ),
  CityEntry.mk "RS" "MOSTARDAS" (-31.1054 : ℚ) (-50.9167 : ℚ),
  CityEntry.mk "RS" "MUCUM" (-29.163 : ℚ) (-51.8714 : ℚ),
  CityEntry.mk "RS" "NAO ME TOQUE" (-28.4548 : ℚ) (-52.8182 : ℚ),
  CityEntry.mk "RS" "NONOAI" (-27.3689 : ℚ) (-52.7756 : ℚ),
  CityEntry.mk "RS" "NOVA ALVORADA" (-28.6822 : ℚ) (-52.1631 : ℚ),
  CityEntry.mk "RS" "NOVA BASSANO" (-28.7291 : ℚ) (-51.7072 : ℚ),
  CityEntry.mk "RS" "NOVA BOA VISTA" (-27.9926 : ℚ) (-52.9784 : ℚ),
  CityEntry.mk "RS" "NOVA BRESCIA" (-29.2182 : ℚ) (-52.0319 : ℚ),
  CityEntry.mk "RS" "NOVA CANDELARIA" (-27.6137 : ℚ) (-54.1074 : ℚ),
  CityEntry.mk "RS" "NOVA ESPERANCA DO SUL" (-29.4066 : ℚ) (-54.8293 : ℚ),
  CityEntry.mk "RS" "NOVA HARTZ" (-29.5808 : ℚ) (-50.9051 : ℚ),
  CityEntry.mk "RS" "NOVA PALMA" (-29.471 : ℚ) (-53.4689 : ℚ),
  CityEntry.mk "RS" "NOVA PETROPOLIS" (-29.3741 : ℚ) (-51.1136 : ℚ),
  CityEntry.mk "RS" "NOVA PRATA" (-28.7799 : ℚ) (-51.6113 : ℚ),
  CityEntry.mk "RS" "NOVA ROMA DO SUL" (-28.9882 : ℚ) (-51.4095 : ℚ),
  CityEntry.mk "RS" "NOVA SANTA RITA" (-29.8525 : ℚ) (-51.2837 : ℚ),
  CityEntry.mk "RS" "NOVO BARREIRO" (-27.9077 : ℚ) (-53.1103 : ℚ),
  CityEntry.mk "RS" "NOVO CABRAIS" (-29.7338 : ℚ) (-52.9489 : ℚ),
  CityEntry.mk "RS" "NOVO HAMBURGO" (-29.6875 : ℚ) (-51.1328 : ℚ),
  CityEntry.mk "RS" "NOVO TIRADENTES" (-27.5649 : ℚ) (-53.1837 : ℚ),
  CityEntry.mk "RS" "OSORIO" (-29.8881 : ℚ) (-50.2667 : ℚ),
  CityEntry.mk "RS" "PALMARES DO SUL" (-30.2535 : ℚ) (-50.5103 : ℚ),
  CityEntry.mk "RS" "PALMEIRA DAS MISSOES" (-27.9007 : ℚ) (-53.3134 : ℚ),
  CityEntry.mk "RS" "PALMITINHO" (-27.3596 : ℚ) (-53.558 : ℚ),
  CityEntry.mk "RS" "PANAMBI" (-28.2833 : ℚ) (-53.5023 : ℚ),
  CityEntry.mk "RS" "PANTANO GRANDE" (-30.1902 : ℚ) (-52.3729 : ℚ),
  CityEntry.mk "RS" "PARAI" (-28.5964 : ℚ) (-51.7896 : ℚ),
  CityEntry.mk "RS" "PARAISO DO SUL" (-29.6717 : ℚ) (-53.144 : ℚ),
  CityEntry.mk "RS" "PAROBE" (-29.6243 : ℚ) (-50.8312 : ℚ),
  CityEntry.mk "RS" "PASSO DO SOBRADO" (-29.748 : ℚ) (-52.2748 : ℚ),
  CityEntry.mk "RS" "PASSO FUNDO" (-28.2576 : ℚ) (-52.4091 : ℚ),
  CityEntry.mk "RS" "PAVERAMA" (-29.5486 : ℚ) (-51.7339 : ℚ),
  CityEntry.mk "RS" "PEDRO OSORIO" (-31.8642 : ℚ) (-52.8184 : ℚ),
  CityEntry.mk "RS" "PEJUCARA" (-28.4283 : ℚ) (-53.6579 : ℚ),
  CityEntry.mk "RS" "PELOTAS" (-31.7649 : ℚ) (-52.3371 : ℚ),
  CityEntry.mk "RS" "PICADA CAFE" (-29.4464 : ℚ) (-51.1367 : ℚ),
  CityEntry.mk "RS" "PINHAL" (-27.508 : ℚ) (-53.2082 : ℚ),
  CityEntry.mk "RS" "PINHEIRO MACHADO" (-31.5794 : ℚ) (-53.3798 : ℚ),
  CityEntry.mk "RS" "PINTO BANDEIRA" (-29.0975 : ℚ) (-51.4503 : ℚ),
  CityEntry.mk "RS" "PIRATINI" (-31.4473 : ℚ) (-53.0973 : ℚ),
  CityEntry.mk "RS" "PLANALTO" (-27.3297 : ℚ) (-53.0575 : ℚ),
  CityEntry.mk "RS" "POCO DAS ANTAS" (-29.4481 : ℚ) (-51.6719 : ℚ),
  CityEntry.mk "RS" "PORTAO" (-29.7015 : ℚ) (-51.2429 : ℚ),
  CityEntry.mk "RS" "PORTO ALEGRE" (-30.0318 : ℚ) (-51.2065 : ℚ),
  CityEntry.mk "RS" "PORTO LUCENA" (-27.8569 : ℚ) (-55.01 : ℚ),
  CityEntry.mk "RS" "PORTO MAUA" (-27.5796 : ℚ) (-54.6657 : ℚ),
  CityEntry.mk "RS" "PORTO XAVIER" (-27.9082 : ℚ) (-55.1379 : ℚ),
  CityEntry.mk "RS" "PRESIDENTE LUCENA" (-29.5175 : ℚ) (-51.1798 : ℚ),
  CityEntry.mk "RS" "PUTINGA" (-29.0045 : ℚ) (-52.1569 : ℚ),
  CityEntry.mk "RS" "QUARAI" (-30.384 : ℚ) (-56.4483 : ℚ),
  CityEntry.mk "RS" "QUINZE DE NOVEMBRO" (-28.7466 : ℚ) (-53.1011 : ℚ),
  CityEntry.mk "RS" "REDENTORA" (-27.664 : ℚ) (-53.6407 : ℚ),
  CityEntry.mk "RS" "RELVADO" (-29.1164 : ℚ) (-52.0778 : ℚ),
  CityEntry.mk "RS" "RESTINGA SECA" (-29.8188 : ℚ) (-53.3807 : ℚ),
  CityEntry.mk "RS" "RIO DOS INDIOS" (-27.2973 : ℚ) (-52.8417 : ℚ),
  CityEntry.mk "RS" "RIO GRANDE" (-32.0349 : ℚ) (-52.1071 : ℚ),
  CityEntry.mk "RS" "RIO PARDO" (-29.988 : ℚ) (-52.3711 : ℚ),
  CityEntry.mk "RS" "RIOZINHO" (-29.639 : ℚ) (-50.4488 : ℚ),
  CityEntry.mk "RS" "RODEIO BONITO" (-27.4742 : ℚ) (-53.1706 : ℚ),
  CityEntry.mk "RS" "ROLANTE" (-29.6462 : ℚ) (-50.5819 : ℚ),
  CityEntry.mk "RS" "RONDA ALTA" (-27.7758 : ℚ) (-52.8056 : ℚ),
  CityEntry.mk "RS" "ROQUE GONZALES" (-28.1297 : ℚ) (-55.0266 : ℚ),
  CityEntry.mk "RS" "ROSARIO DO SUL" (-30.2515 : ℚ) (-54.9221 : ℚ),
  CityEntry.mk "RS" "SAGRADA FAMILIA" (-27.7085 : ℚ) (-53.1351 : ℚ),
  CityEntry.mk "RS" "SALDANHA MARINHO" (-28.3941 : ℚ) (-53.097 : ℚ),
  CityEntry.mk "RS" "SALTO DO JACUI" (-29.0951 : ℚ) (-53.2133 : ℚ),
  CityEntry.mk "RS" "SALVADOR DAS MISSOES" (-28.1233 : ℚ) (-54.8373 : ℚ),
  CityEntry.mk "RS" "SALVADOR DO SUL" (-29.4386 : ℚ) (-51.5077 : ℚ),
  CityEntry.mk "RS" "SANANDUVA" (-27.947 : ℚ) (-51.8079 : ℚ),
  CityEntry.mk "RS" "SANTA BARBARA DO SUL" (-28.3653 : ℚ) (-53.251 : ℚ),
  CityEntry.mk "RS" "SANTA CLARA DO SUL" (-29.4747 : ℚ) (-52.0843 : ℚ),
  CityEntry.mk "RS" "SANTA CRUZ DO SUL" (-29.722 : ℚ) (-52.4343 : ℚ),
  CityEntry.mk "RS" "SANTA MARIA" (-29.6868 : ℚ) (-53.8149 : ℚ),
  CityEntry.mk "RS" "SANTA MARIA DO HERVAL" (-29.4902 : ℚ) (-50.9919 : ℚ),
  CityEntry.mk "RS" "SANTA ROSA" (-27.8702 : ℚ) (-54.4796 : ℚ),
  CityEntry.mk "RS" "SANTA VITORIA DO PALMAR" (-33.525 : ℚ) (-53.3717 : ℚ),
  CityEntry.mk "RS" "SANTANA DA BOA VISTA" (-30.8697 : ℚ) (-53.11 : ℚ),
  CityEntry.mk "RS" "SANTANA DO LIVRAMENTO" (-30.8773 : ℚ) (-55.5392 : ℚ),
  CityEntry.mk "RS" "SANTIAGO" (-29.1897 : ℚ) (-54.8666 : ℚ),
  CityEntry.mk "RS" "SANTO ANGELO" (-28.3001 : ℚ) (-54.2668 : ℚ),
  CityEntry.mk "RS" "SANTO ANTONIO DA PATRULHA" (-29.8268 : ℚ) (-50.5175 : ℚ),
  CityEntry.mk "RS" "SANTO ANTONIO DAS MISSOES" (-28.514 : ℚ) (-55.2251 : ℚ),
  CityEntry.mk "RS" "SANTO ANTONIO DO PLANALTO" (-28.403 : ℚ) (-52.6992 : ℚ),
  CityEntry.mk "RS" "SANTO AUGUSTO" (-27.8526 : ℚ) (-53.7776 : ℚ),
  CityEntry.mk "RS" "SANTO CRISTO" (-27.8263 : ℚ) (-54.662 : ℚ),
  CityEntry.mk "RS" "SAO BORJA" (-28.6578 : ℚ) (-56.0036 : ℚ),
  CityEntry.mk "RS" "SAO FRANCISCO DE ASSIS" (-29.5547 : ℚ) (-55.1253 : ℚ),
  CityEntry.mk "RS" "SAO FRANCISCO DE PAULA" (-29.4404 : ℚ) (-50.5828 : ℚ),
  CityEntry.mk "RS" "SAO GABRIEL" (-30.3337 : ℚ) (-54.3217 : ℚ),
  CityEntry.mk "RS" "SAO JERONIMO" (-29.9716 : ℚ) (-51.7251 : ℚ),
  CityEntry.mk "RS" "SAO JOAO DA URTIGA" (-27.8195 : ℚ) (-51.8257 : ℚ),
  CityEntry.mk "RS" "SAO JOAO DO POLESINE" (-29.6194 : ℚ) (-53.4439 : ℚ),
  CityEntry.mk "RS" "SAO JORGE" (-28.4984 : ℚ) (-51.7064 : ℚ),
  CityEntry.mk "RS" "SAO JOSE DAS MISSOES" (-27.7789 : ℚ) (-53.1226 : ℚ),
  CityEntry.mk "RS" "SAO JOSE DO HERVAL" (-29.052 : ℚ) (-52.295 : ℚ),
  CityEntry.mk "RS" "SAO JOSE DO HORTENCIO" (-29.528 : ℚ) (-51.245 : ℚ),
  CityEntry.mk "RS" "SAO JOSE DO INHACORA" (-27.7251 : ℚ) (-54.1275 : ℚ),
  CityEntry.mk "RS" "SAO JOSE DO NORTE" (-32.0151 : ℚ) (-52.0331 : ℚ),
  CityEntry.mk "RS" "SAO JOSE DO OURO" (-27.7707 : ℚ) (-51.5966 : ℚ),
  CityEntry.mk "RS" "SAO LEOPOLDO" (-29.7545 : ℚ) (-51.1498 : ℚ),
  CityEntry.mk "RS" "SAO LOURENCO DO SUL" (-31.3564 : ℚ) (-51.9715 : ℚ),
  CityEntry.mk "RS" "SAO LUIZ GONZAGA" (-28.412 : ℚ) (-54.9559 : ℚ),
  CityEntry.mk "RS" "SAO MARCOS" (-28.9677 : ℚ) (-51.0696 : ℚ),
  CityEntry.mk "RS" "SAO MARTINHO" (-27.7112 : ℚ) (-53.9699 : ℚ),
  CityEntry.mk "RS" "SAO MIGUEL DAS MISSOES" (-28.556 : ℚ) (-54.5559 : ℚ),
  CityEntry.mk "RS" "SAO NICOLAU" (-28.1834 : ℚ) (-55.2654 : ℚ),
  CityEntry.mk "RS" "SAO PEDRO DA SERRA" (-29.4193 : ℚ) (-51.5134 : ℚ),
  CityEntry.mk "RS" "SAO PEDRO DAS MISSOES" (-27.7706 : ℚ) (-53.2513 : ℚ),
  CityEntry.mk "RS" "SAO PEDRO DO BUTIA" (-28.1243 : ℚ) (-54.8926 : ℚ),
  CityEntry.mk "RS" "SAO PEDRO DO SUL" (-29.6202 : ℚ) (-54.1855 : ℚ),
  CityEntry.mk "RS" "SAO SEPE" (-30.1643 : ℚ) (-53.5603 : ℚ),
  CityEntry.mk "RS" "SAO VENDELINO" (-29.3729 : ℚ) (-51.3675 : ℚ),
  CityEntry.mk "RS" "SAPIRANGA" (-29.6349 : ℚ) (-51.0064 : ℚ),
  CityEntry.mk "RS" "SAPUCAIA DO SUL" (-29.8276 : ℚ) (-51.145 : ℚ),
  CityEntry.mk "RS" "SARANDI" (-27.942 : ℚ) (-52.9231 : ℚ),
  CityEntry.mk "RS" "SEBERI" (-27.4829 : ℚ) (-53.4026 : ℚ),
  CityEntry.mk "RS" "SEDE NOVA" (-27.6367 : ℚ) (-53.9493 : ℚ),
  CityEntry.mk "RS" "SELBACH" (-28.6294 : ℚ) (-52.9498 : ℚ),
  CityEntry.mk "RS" "SENTINELA DO SUL" (-30.6107 : ℚ) (-51.5862 : ℚ),
  CityEntry.mk "RS" "SERAFINA CORREA" (-28.7126 : ℚ) (-51.9352 : ℚ),
  CityEntry.mk "RS" "SERTAO" (-27.9798 : ℚ) (-52.2588 : ℚ),
  CityEntry.mk "RS" "SERTAO DE SANTANA" (-30.4958 : ℚ) (-51.5833 : ℚ),
  CityEntry.mk "RS" "SERTAO SANTANA" (-30.4562 : ℚ) (-51.6017 : ℚ),
  CityEntry.mk "RS" "SEVERIANO DE ALMEIDA" (-27.4362 : ℚ) (-52.1217 : ℚ),
  CityEntry.mk "RS" "SINIMBU" (-29.5357 : ℚ) (-52.5304 : ℚ),
  CityEntry.mk "RS" "SOLEDADE" (-28.8306 : ℚ) (-52.5131 : ℚ),
  CityEntry.mk "RS" "TAPEJARA" (-28.0652 : ℚ) (-52.0097 : ℚ),
  CityEntry.mk "RS" "TAPERA" (-28.6277 : ℚ) (-52.8613 : ℚ),
  CityEntry.mk "RS" "TAPES" (-30.6683 : ℚ) (-51.3991 : ℚ),
  CityEntry.mk "RS" "TAQUARA" (-29.6505 : ℚ) (-50.7753 : ℚ),
  CityEntry.mk "RS" "TAQUARI" (-29.7943 : ℚ) (-51.8653 : ℚ),
  CityEntry.mk "RS" "TAQUARUCU DO SUL" (-27.4005 : ℚ) (-53.4702 : ℚ),
  CityEntry.mk "RS" "TAVARES" (-31.2843 : ℚ) (-51.088 : ℚ),
  CityEntry.mk "RS" "TENENTE PORTELA" (-27.3711 : ℚ) (-53.7585 : ℚ),
  CityEntry.mk "RS" "TERRA DE AREIA" (-29.5788 : ℚ) (-50.0644 : ℚ),
  CityEntry.mk "RS" "TEUTONIA" (-29.4482 : ℚ) (-51.8044 : ℚ),
  CityEntry.mk "RS" "TIO HUGO" (-28.5712 : ℚ) (-52.5955 : ℚ),
  CityEntry.mk "RS" "TIRADENTES DO SUL" (-27.4022 : ℚ) (-54.0814 : ℚ),
  CityEntry.mk "RS" "TORRES" (-29.3334 : ℚ) (-49.7333 : ℚ),
  CityEntry.mk "RS" "TRAMANDAI" (-29.9841 : ℚ) (-50.1322 : ℚ),
  CityEntry.mk "RS" "TRAVESSEIRO" (-29.2977 : ℚ) (-52.0532 : ℚ),
  CityEntry.mk "RS" "TRES CACHOEIRAS" (-29.4487 : ℚ) (-49.9275 : ℚ),
  CityEntry.mk "RS" "TRES COROAS" (-29.5137 : ℚ) (-50.7739 : ℚ),
  CityEntry.mk "RS" "TRES DE MAIO" (-27.78 : ℚ) (-54.2357 : ℚ),
  CityEntry.mk "RS" "TRES PASSOS" (-27.4555 : ℚ) (-53.9296 : ℚ),
  CityEntry.mk "RS" "TRINDADE DO SUL" (-27.5239 : ℚ) (-52.8956 : ℚ),
  CityEntry.mk "RS" "TRIUNFO" (-29.9291 : ℚ) (-51.7075 : ℚ),
  CityEntry.mk "RS" "TUCUNDUVA" (-27.6573 : ℚ) (-54.4439 : ℚ),
  CityEntry.mk "RS" "TUPANCIRETA" (-29.0858 : ℚ) (-53.8445 : ℚ),
  CityEntry.mk "RS" "TUPANDI" (-29.4772 : ℚ) (-51.4174 : ℚ),
  CityEntry.mk "RS" "TUPARENDI" (-27.7598 : ℚ) (-54.4814 : ℚ),
  CityEntry.mk "RS" "UNISTALDA" (-29.04 : ℚ) (-55.1517 : ℚ),
  CityEntry.mk "RS" "URUGUAIANA" (-29.7614 : ℚ) (-57.0853 : ℚ),
  CityEntry.mk "RS" "VACARIA" (-28.5079 : ℚ) (-50.9418 : ℚ),
  CityEntry.mk "RS" "VALE REAL" (-29.3919 : ℚ) (-51.2559 : ℚ),
  CityEntry.mk "RS" "VALE VERDE" (-29.7864 : ℚ) (-52.1857 : ℚ),
  CityEntry.mk "RS" "VANINI" (-28.4758 : ℚ) (-51.8447 : ℚ),
  CityEntry.mk "RS" "VENANCIO AIRES" (-29.6143 : ℚ) (-52.1932 : ℚ),
  CityEntry.mk "RS" "VERA CRUZ" (-29.7184 : ℚ) (-52.5152 : ℚ),
  CityEntry.mk "RS" "VERANOPOLIS" (-28.9312 : ℚ) (-51.5516 : ℚ),
  CityEntry.mk "RS" "VIADUTOS" (-27.5716 : ℚ) (-52.0211 : ℚ),
  CityEntry.mk "RS" "VIAMAO" (-30.0819 : ℚ) (-51.0194 : ℚ),
  CityEntry.mk "RS" "VICENTE DUTRA" (-27.1607 : ℚ) (-53.4022 : ℚ),
  CityEntry.mk "RS" "VILA FLORES" (-28.8598 : ℚ) (-51.5504 : ℚ),
  CityEntry.mk "RS" "VILA MARIA" (-28.5359 : ℚ) (-52.1486 : ℚ),
  CityEntry.mk "RS" "VILA NOVA DO SUL" (-30.3461 : ℚ) (-53.876 : ℚ),
  CityEntry.mk "RS" "VISTA ALEGRE" (-27.3686 : ℚ) (-53.4919 : ℚ),
  CityEntry.mk "RS" "VISTA GAUCHA" (-27.2902 : ℚ) (-53.6974 : ℚ),
  CityEntry.mk "RS" "VITORIA DAS MISSOES" (-28.3516 : ℚ) (-54.504 : ℚ),
  CityEntry.mk "SC" "ABDON BATISTA" (-27.6126 : ℚ) (-51.0233 : ℚ),
  CityEntry.mk "SC" "ABELARDO LUZ" (-26.5716 : ℚ) (-52.3229 : ℚ),
  CityEntry.mk "SC" "AGROLANDIA" (-27.4087 : ℚ) (-49.822 : ℚ),
  CityEntry.mk "SC" "AGRONOMICA" (-27.2662 : ℚ) (-49.708 : ℚ),
  CityEntry.mk "SC" "AGUAS DE CHAPECO" (-27.0754 : ℚ) (-52.9808 : ℚ),
  CityEntry.mk "SC" "ALFREDO WAGNER" (-27.7001 : ℚ) (-49.3273 : ℚ),
  CityEntry.mk "SC" "ANTONIO CARLOS" (-27.5191 : ℚ) (-48.766 : ℚ),
  CityEntry.mk "SC" "APIUNA" (-27.0375 : ℚ) (-49.3885 : ℚ),
  CityEntry.mk "SC" "ARABUTA" (-27.1587 : ℚ) (-52.1423 : ℚ),
  CityEntry.mk "SC" "ARAQUARI" (-26.3754 : ℚ) (-48.7188 : ℚ),
  CityEntry.mk "SC" "ARARANGUA" (-28.9356 : ℚ) (-49.4918 : ℚ),
  CityEntry.mk "SC" "ARMAZEM" (-28.2448 : ℚ) (-49.0215 : ℚ),
  CityEntry.mk "SC" "ASCURRA" (-26.9548 : ℚ) (-49.3783 : ℚ),
  CityEntry.mk "SC" "BALNEARIO BARRA DO SUL" (-26.4597 : ℚ) (-48.6123 : ℚ),
  CityEntry.mk "SC" "BALNEARIO CAMBORIU" (-26.9926 : ℚ) (-48.6352 : ℚ),
  CityEntry.mk "SC" "BALNEARIO GAIVOTAS" (-29.155 : ℚ) (-49.566 : ℚ),
  CityEntry.mk "SC" "BALNEARIO PICARRAS" (-26.7639 : ℚ) (-48.6717 : ℚ),
  CityEntry.mk "SC" "BARRA DO SUL" (-26.4433 : ℚ) (-48.6094 : ℚ),
  CityEntry.mk "SC" "BARRA VELHA" (-26.637 : ℚ) (-48.6933 : ℚ),
  CityEntry.mk "SC" "BELA VISTA DO TOLDO" (-26.2746 : ℚ) (-50.4664 : ℚ),
  CityEntry.mk "SC" "BIGUACU" (-27.496 : ℚ) (-48.6598 : ℚ)
]

/-- Gazetteer rows 750 to 940 of `RAW_CITIES_CSV` (`STATE,CITY,LAT,LNG`). -/
def rawCities3 : List CityEntry := [
  CityEntry.mk "SC" "BLUMENAU" (-26.9155 : ℚ) (-49.0709 : ℚ),
  CityEntry.mk "SC" "BOM RETIRO" (-27.799 : ℚ) (-49.487 : ℚ),
  CityEntry.mk "SC" "BOMBINHAS" (-27.1382 : ℚ) (-48.5146 : ℚ),
  CityEntry.mk "SC" "BOTUVERA" (-27.2007 : ℚ) (-49.0689 : ℚ),
  CityEntry.mk "SC" "BRACO DO NORTE" (-28.2681 : ℚ) (-49.1701 : ℚ),
  CityEntry.mk "SC" "BRUSQUE" (-27.0977 : ℚ) (-48.9107 : ℚ),
  CityEntry.mk "SC" "CACADOR" (-26.7757 : ℚ) (-51.012 : ℚ),
  CityEntry.mk "SC" "CAMBORIU" (-27.0241 : ℚ) (-48.6503 : ℚ),
  CityEntry.mk "SC" "CAMPO ALEGRE" (-26.195 : ℚ) (-49.2676 : ℚ),
  CityEntry.mk "SC" "CAMPO BELO DO SUL" (-27.8975 : ℚ) (-50.7595 : ℚ),
  CityEntry.mk "SC" "CAMPO ERE" (-26.3931 : ℚ) (-53.0856 : ℚ),
  CityEntry.mk "SC" "CAMPOS NOVOS" (-27.4002 : ℚ) (-51.2276 : ℚ),
  CityEntry.mk "SC" "CANELINHA" (-27.2616 : ℚ) (-48.7658 : ℚ),
  CityEntry.mk "SC" "CANOINHAS" (-26.1766 : ℚ) (-50.395 : ℚ),
  CityEntry.mk "SC" "CAPIVARI DE BAIXO" (-28.4498 : ℚ) (-48.9631 : ℚ),
  CityEntry.mk "SC" "CATANDUVAS" (-27.069 : ℚ) (-51.6602 : ℚ),
  CityEntry.mk "SC" "CERRO NEGRO" (-27.7942 : ℚ) (-50.8673 : ℚ),
  CityEntry.mk "SC" "CHAPECO" (-27.1004 : ℚ) (-52.6152 : ℚ),
  CityEntry.mk "SC" "COCAL DO SUL" (-28.5986 : ℚ) (-49.3335 : ℚ),
  CityEntry.mk "SC" "CONCORDIA" (-27.2335 : ℚ) (-52.026 : ℚ),
  CityEntry.mk "SC" "CORDILHEIRA ALTA" (-26.9844 : ℚ) (-52.6056 : ℚ),
  CityEntry.mk "SC" "CORONEL FREITAS" (-26.9057 : ℚ) (-52.7011 : ℚ),
  CityEntry.mk "SC" "CORONEL MARTINS" (-26.511 : ℚ) (-52.6694 : ℚ),
  CityEntry.mk "SC" "CORUPA" (-26.4246 : ℚ) (-49.246 : ℚ),
  CityEntry.mk "SC" "CRICIUMA" (-28.6723 : ℚ) (-49.3729 : ℚ),
  CityEntry.mk "SC" "CURITIBANOS" (-27.2824 : ℚ) (-50.5816 : ℚ),
  CityEntry.mk "SC" "DIONISIO CERQUEIRA" (-26.2648 : ℚ) (-53.6351 : ℚ),
  CityEntry.mk "SC" "DONA EMA" (-27.205 : ℚ) (-49.8869 : ℚ),
  CityEntry.mk "SC" "FLORIANOPOLIS" (-27.5945 : ℚ) (-48.5477 : ℚ),
  CityEntry.mk "SC" "FORQUILHINHA" (-28.7454 : ℚ) (-49.4785 : ℚ),
  CityEntry.mk "SC" "FRAIBURGO" (-27.0233 : ℚ) (-50.92 : ℚ),
  CityEntry.mk "SC" "GALVAO" (-26.4549 : ℚ) (-52.6875 : ℚ),
  CityEntry.mk "SC" "GAROPABA" (-28.0275 : ℚ) (-48.6192 : ℚ),
  CityEntry.mk "SC" "GARUVA" (-26.0292 : ℚ) (-48.852 : ℚ),
  CityEntry.mk "SC" "GASPAR" (-26.9336 : ℚ) (-48.9534 : ℚ),
  CityEntry.mk "SC" "GOV CELSO RAMOS" (-27.3236 : ℚ) (-48.5672 : ℚ),
  CityEntry.mk "SC" "GOVERNADOR CELSO RAMOS" (-27.3172 : ℚ) (-48.5576 : ℚ),
  CityEntry.mk "SC" "GRAO PARA" (-28.1809 : ℚ) (-49.2252 : ℚ),
  CityEntry.mk "SC" "GUABIRUBA" (-27.0808 : ℚ) (-48.9804 : ℚ),
  CityEntry.mk "SC" "GUARACIABA" (-26.6042 : ℚ) (-53.5243 : ℚ),
  CityEntry.mk "SC" "GUARAMIRIM" (-26.4688 : ℚ) (-49.0026 : ℚ),
  CityEntry.mk "SC" "ICARA" (-28.7132 : ℚ) (-49.3087 : ℚ),
  CityEntry.mk "SC" "ILHOTA" (-26.9023 : ℚ) (-48.8251 : ℚ),
  CityEntry.mk "SC" "IMBITUBA" (-28.2284 : ℚ) (-48.6659 : ℚ),
  CityEntry.mk "SC" "IMBUIA" (-27.4908 : ℚ) (-49.4218 : ℚ),
  CityEntry.mk "SC" "INDAIAL" (-26.8992 : ℚ) (-49.2354 : ℚ),
  CityEntry.mk "SC" "IPORA DO OESTE" (-26.9854 : ℚ) (-53.5355 : ℚ),
  CityEntry.mk "SC" "IRINEOPOLIS" (-26.242 : ℚ) (-50.7957 : ℚ),
  CityEntry.mk "SC" "ITAIOPOLIS" (-26.339 : ℚ) (-49.9092 : ℚ),
  CityEntry.mk "SC" "ITAJAI" (-26.9101 : ℚ) (-48.6705 : ℚ),
  CityEntry.mk "SC" "ITAPEMA" (-27.0861 : ℚ) (-48.616 : ℚ),
  CityEntry.mk "SC" "ITAPIRANGA" (-27.1659 : ℚ) (-53.7166 : ℚ),
  CityEntry.mk "SC" "ITAPOA" (-26.1158 : ℚ) (-48.6182 : ℚ),
  CityEntry.mk "SC" "ITUPORANGA" (-27.4101 : ℚ) (-49.5963 : ℚ),
  CityEntry.mk "SC" "JACINTO MACHADO" (-28.9961 : ℚ) (-49.7623 : ℚ),
  CityEntry.mk "SC" "JAGUARUNA" (-28.6146 : ℚ) (-49.0296 : ℚ),
  CityEntry.mk "SC" "JARAGUA DO SUL" (-26.4851 : ℚ) (-49.0713 : ℚ),
  CityEntry.mk "SC" "JARDINOPOLIS" (-26.7191 : ℚ) (-52.8625 : ℚ),
  CityEntry.mk "SC" "JOACABA" (-27.1721 : ℚ) (-51.5108 : ℚ),
  CityEntry.mk "SC" "JOINVILLE" (-26.3045 : ℚ) (-48.8487 : ℚ),
  CityEntry.mk "SC" "JOSE BOITEAUX" (-26.9239 : ℚ) (-49.8839 : ℚ),
  CityEntry.mk "SC" "LAGES" (-27.815 : ℚ) (-50.3259 : ℚ),
  CityEntry.mk "SC" "LAGUNA" (-28.4843 : ℚ) (-48.7772 : ℚ),
  CityEntry.mk "SC" "LAURO MULLER" (-28.3859 : ℚ) (-49.4035 : ℚ),
  CityEntry.mk "SC" "LEOBERTO LEAL" (-27.5081 : ℚ) (-49.2789 : ℚ),
  CityEntry.mk "SC" "LONTRAS" (-27.1684 : ℚ) (-49.535 : ℚ),
  CityEntry.mk "SC" "LUIS ALVES" (-26.7767 : ℚ) (-48.9767 : ℚ),
  CityEntry.mk "SC" "MAFRA" (-26.1159 : ℚ) (-49.8086 : ℚ),
  CityEntry.mk "SC" "MARACAJA" (-28.8463 : ℚ) (-49.4605 : ℚ),
  CityEntry.mk "SC" "MARAVILHA" (-26.7665 : ℚ) (-53.1737 : ℚ),
  CityEntry.mk "SC" "MASSARANDUBA" (-26.6109 : ℚ) (-49.0054 : ℚ),
  CityEntry.mk "SC" "MONDAI" (-27.1008 : ℚ) (-53.4032 : ℚ),
  CityEntry.mk "SC" "MONTE CARLO" (-27.2239 : ℚ) (-50.9808 : ℚ),
  CityEntry.mk "SC" "MONTE CASTELO" (-26.461 : ℚ) (-50.2327 : ℚ),
  CityEntry.mk "SC" "MORRO DA FUMACA" (-28.6511 : ℚ) (-49.2169 : ℚ),
  CityEntry.mk "SC" "NAVEGANTES" (-26.8943 : ℚ) (-48.6546 : ℚ),
  CityEntry.mk "SC" "NOVA TRENTO" (-27.278 : ℚ) (-48.9298 : ℚ),
  CityEntry.mk "SC" "NOVA VENEZA" (-28.6338 : ℚ) (-49.5055 : ℚ),
  CityEntry.mk "SC" "ORLEANS" (-28.3487 : ℚ) (-49.2986 : ℚ),
  CityEntry.mk "SC" "OTACILIO COSTA" (-27.4789 : ℚ) (-50.1231 : ℚ),
  CityEntry.mk "SC" "PAIAL" (-27.2541 : ℚ) (-52.4975 : ℚ),
  CityEntry.mk "SC" "PALHOCA" (-27.6455 : ℚ) (-48.6697 : ℚ),
  CityEntry.mk "SC" "PALMITOS" (-27.0702 : ℚ) (-53.1586 : ℚ),
  CityEntry.mk "SC" "PAPANDUVA" (-26.3777 : ℚ) (-50.1419 : ℚ),
  CityEntry.mk "SC" "PASSO DE TORRES" (-29.3099 : ℚ) (-49.722 : ℚ),
  CityEntry.mk "SC" "PEDRAS GRANDES" (-28.4339 : ℚ) (-49.1949 : ℚ),
  CityEntry.mk "SC" "PENHA" (-26.7754 : ℚ) (-48.6465 : ℚ),
  CityEntry.mk "SC" "PERITIBA" (-27.3754 : ℚ) (-51.9018 : ℚ),
  CityEntry.mk "SC" "PINHALZINHO" (-26.8495 : ℚ) (-52.9913 : ℚ),
  CityEntry.mk "SC" "PIRATUBA" (-27.4242 : ℚ) (-51.7668 : ℚ),
  CityEntry.mk "SC" "PLANALTO ALEGRE" (-27.0704 : ℚ) (-52.867 : ℚ),
  CityEntry.mk "SC" "POMERODE" (-26.7384 : ℚ) (-49.1785 : ℚ),
  CityEntry.mk "SC" "PORTO BELO" (-27.1586 : ℚ) (-48.5469 : ℚ),
  CityEntry.mk "SC" "PORTO UNIAO" (-26.2451 : ℚ) (-51.0759 : ℚ),
  CityEntry.mk "SC" "POUSO REDONDO" (-27.2567 : ℚ) (-49.9301 : ℚ),
  CityEntry.mk "SC" "PRAIA GRANDE" (-29.1918 : ℚ) (-49.9525 : ℚ),
  CityEntry.mk "SC" "PRESIDENTE GETULIO" (-27.0474 : ℚ) (-49.6246 : ℚ),
  CityEntry.mk "SC" "QUILOMBO" (-26.7264 : ℚ) (-52.724 : ℚ),
  CityEntry.mk "SC" "RIO DO CAMPO" (-26.9452 : ℚ) (-50.136 : ℚ),
  CityEntry.mk "SC" "RIO DO OESTE" (-27.1952 : ℚ) (-49.7989 : ℚ),
  CityEntry.mk "SC" "RIO DO SUL" (-27.2156 : ℚ) (-49.643 : ℚ),
  CityEntry.mk "SC" "RIO FORTUNA" (-28.1244 : ℚ) (-49.1068 : ℚ),
  CityEntry.mk "SC" "RIO NEGRINHO" (-26.2591 : ℚ) (-49.5177 : ℚ),
  CityEntry.mk "SC" "SALETE" (-26.9798 : ℚ) (-49.9988 : ℚ),
  CityEntry.mk "SC" "SALTO VELOSO" (-26.903 : ℚ) (-51.4043 : ℚ),
  CityEntry.mk "SC" "SANTA CECILIA" (-26.9592 : ℚ) (-50.4252 : ℚ),
  CityEntry.mk "SC" "SANTA ROSA DO SUL" (-29.1313 : ℚ) (-49.7109 : ℚ),
  CityEntry.mk "SC" "SANTA TEREZINHA" (-26.7813 : ℚ) (-50.009 : ℚ),
  CityEntry.mk "SC" "SANTO AMARO IMPERATRIZ" (-27.6769 : ℚ) (-48.7658 : ℚ),
  CityEntry.mk "SC" "SAO BENTO DO SUL" (-26.2495 : ℚ) (-49.3831 : ℚ),
  CityEntry.mk "SC" "SAO CARLOS" (-27.0798 : ℚ) (-53.0037 : ℚ),
  CityEntry.mk "SC" "SAO FRANCISCO DO SUL" (-26.2579 : ℚ) (-48.6344 : ℚ),
  CityEntry.mk "SC" "SAO JOAO BATISTA" (-27.2772 : ℚ) (-48.8474 : ℚ),
  CityEntry.mk "SC" "SAO JOAO DO OESTE" (-27.0984 : ℚ) (-53.5977 : ℚ),
  CityEntry.mk "SC" "SAO JOAO DO SUL" (-29.2154 : ℚ) (-49.8094 : ℚ),
  CityEntry.mk "SC" "SAO JOAQUIM" (-28.2887 : ℚ) (-49.9457 : ℚ),
  CityEntry.mk "SC" "SAO JOSE" (-27.6136 : ℚ) (-48.6366 : ℚ),
  CityEntry.mk "SC" "SAO LOURENCO DO OESTE" (-26.3557 : ℚ) (-52.8498 : ℚ),
  CityEntry.mk "SC" "SAO LUDGERO" (-28.3144 : ℚ) (-49.1806 : ℚ),
  CityEntry.mk "SC" "SAO MARTINHO" (-28.1609 : ℚ) (-48.9867 : ℚ),
  CityEntry.mk "SC" "SAO MIGUEL DO OESTE" (-26.7242 : ℚ) (-53.5163 : ℚ),
  CityEntry.mk "SC" "SAUDADES" (-26.9317 : ℚ) (-53.0021 : ℚ),
  CityEntry.mk "SC" "SCHROEDER" (-26.4116 : ℚ) (-49.074 : ℚ),
  CityEntry.mk "SC" "SEARA" (-27.1564 : ℚ) (-52.299 : ℚ),
  CityEntry.mk "SC" "SIDEROPOLIS" (-28.5955 : ℚ) (-49.4314 : ℚ),
  CityEntry.mk "SC" "SOMBRIO" (-29.108 : ℚ) (-49.6328 : ℚ),
  CityEntry.mk "SC" "SUL BRASIL" (-26.7351 : ℚ) (-52.964 : ℚ),
  CityEntry.mk "SC" "TAIO" (-27.121 : ℚ) (-49.9942 : ℚ),
  CityEntry.mk "SC" "TIJUCAS" (-27.2354 : ℚ) (-48.6322 : ℚ),
  CityEntry.mk "SC" "TIMBE DO SUL" (-28.8287 : ℚ) (-49.842 : ℚ),
  CityEntry.mk "SC" "TIMBO" (-26.8246 : ℚ) (-49.269 : ℚ),
  CityEntry.mk "SC" "TRES BARRAS" (-26.1056 : ℚ) (-50.3197 : ℚ),
  CityEntry.mk "SC" "TROMBUDO CENTRAL" (-27.3033 : ℚ) (-49.793 : ℚ),
  CityEntry.mk "SC" "TUBARAO" (-28.4713 : ℚ) (-49.0144 : ℚ),
  CityEntry.mk "SC" "TURVO" (-28.9272 : ℚ) (-49.6831 : ℚ),
  CityEntry.mk "SC" "URUSSANGA" (-28.518 : ℚ) (-49.3238 : ℚ),
  CityEntry.mk "SC" "VARGEAO" (-26.8621 : ℚ) (-52.1549 : ℚ),
  CityEntry.mk "SC" "VIDEIRA" (-27.0086 : ℚ) (-51.1543 : ℚ),
  CityEntry.mk "SC" "WITMARSUM" (-26.9275 : ℚ) (-49.7947 : ℚ),
  CityEntry.mk "SC" "XANXERE" (-26.8747 : ℚ) (-52.4036 : ℚ),
  CityEntry.mk "SC" "XAXIM" (-26.9596 : ℚ) (-52.5374 : ℚ),
  CityEntry.mk "SP" "AGUAS DE LINDOIA" (-22.4733 : ℚ) (-46.6314 : ℚ),
  CityEntry.mk "SP" "AMERICANA" (-22.7374 : ℚ) (-47.3331 : ℚ),
  CityEntry.mk "SP" "ARACATUBA" (-21.2076 : ℚ) (-50.4401 : ℚ),
  CityEntry.mk "SP" "ARARAS" (-22.3572 : ℚ) (-47.3842 : ℚ),
  CityEntry.mk "SP" "ARUJA" (-23.3965 : ℚ) (-46.32 : ℚ),
  CityEntry.mk "SP" "AVARE" (-23.1067 : ℚ) (-48.9251 : ℚ),
  CityEntry.mk "SP" "BANANAL" (-22.6819 : ℚ) (-44.3281 : ℚ),
  CityEntry.mk "SP" "BERTIOGA" (-23.8486 : ℚ) (-46.1396 : ℚ),
  CityEntry.mk "SP" "BOTUCATU" (-22.8837 : ℚ) (-48.4437 : ℚ),
  CityEntry.mk "SP" "BRODOWSKI" (-20.9845 : ℚ) (-47.6572 : ℚ),
  CityEntry.mk "SP" "CACHOEIRA PAULISTA" (-22.6665 : ℚ) (-45.0154 : ℚ),
  CityEntry.mk "SP" "CAMPINAS" (-22.9053 : ℚ) (-47.0659 : ℚ),
  CityEntry.mk "SP" "CAMPO LIMPO PAULISTA" (-23.2078 : ℚ) (-46.7889 : ℚ),
  CityEntry.mk "SP" "CARAPICUIBA" (-23.5235 : ℚ) (-46.8407 : ℚ),
  CityEntry.mk "SP" "CARDOSO" (-20.08 : ℚ) (-49.9183 : ℚ),
  CityEntry.mk "SP" "CRAVINHOS" (-21.338 : ℚ) (-47.7324 : ℚ),
  CityEntry.mk "SP" "GUARUJA" (-23.9888 : ℚ) (-46.258 : ℚ),
  CityEntry.mk "SP" "GUARULHOS" (-23.4538 : ℚ) (-46.5333 : ℚ),
  CityEntry.mk "SP" "IBIUNA" (-23.6596 : ℚ) (-47.223 : ℚ),
  CityEntry.mk "SP" "IRAPURU" (-21.5684 : ℚ) (-51.3472 : ℚ),
  CityEntry.mk "SP" "ITANHAEM" (-24.1736 : ℚ) (-46.788 : ℚ),
  CityEntry.mk "SP" "JACAREI" (-23.2983 : ℚ) (-45.9658 : ℚ),
  CityEntry.mk "SP" "JAU" (-22.2936 : ℚ) (-48.5592 : ℚ),
  CityEntry.mk "SP" "JUNDIAI" (-23.1852 : ℚ) (-46.8974 : ℚ),
  CityEntry.mk "SP" "LINDOIA" (-22.5226 : ℚ) (-46.65 : ℚ),
  CityEntry.mk "SP" "MATAO" (-21.6025 : ℚ) (-48.364 : ℚ),
  CityEntry.mk "SP" "MOGI DAS CRUZES" (-23.5208 : ℚ) (-46.1854 : ℚ),
  CityEntry.mk "SP" "MONTE ALEGRE DO SUL" (-22.6817 : ℚ) (-46.681 : ℚ),
  CityEntry.mk "SP" "MORRO AGUDO" (-20.7288 : ℚ) (-48.0581 : ℚ),
  CityEntry.mk "SP" "ORLANDIA" (-20.7169 : ℚ) (-47.8852 : ℚ),
  CityEntry.mk "SP" "PALMITAL" (-22.7858 : ℚ) (-50.218 : ℚ),
  CityEntry.mk "SP" "PIRASSUNUNGA" (-21.996 : ℚ) (-47.4257 : ℚ),
  CityEntry.mk "SP" "PRADOPOLIS" (-21.3626 : ℚ) (-48.0679 : ℚ),
  CityEntry.mk "SP" "PRAIA GRANDE" (-24.0084 : ℚ) (-46.4121 : ℚ),
  CityEntry.mk "SP" "RIBEIRAO PIRES" (-23.7067 : ℚ) (-46.4058 : ℚ),
  CityEntry.mk "SP" "RIBEIRAO PRETO" (-21.1699 : ℚ) (-47.8099 : ℚ),
  CityEntry.mk "SP" "SANTA ADELIA" (-21.2427 : ℚ) (-48.8063 : ℚ),
  CityEntry.mk "SP" "SANTA BARBARA DOESTE" (-22.7553 : ℚ) (-47.4143 : ℚ),
  CityEntry.mk "SP" "SANTOS" (-23.9535 : ℚ) (-46.335 : ℚ),
  CityEntry.mk "SP" "SAO JOSE DO BARREIRO" (-22.6414 : ℚ) (-44.5774 : ℚ),
  CityEntry.mk "SP" "SAO JOSE DO RIO PRETO" (-20.8113 : ℚ) (-49.3758 : ℚ),
  CityEntry.mk "SP" "SAO JOSE DOS CAMPOS" (-23.1896 : ℚ) (-45.8841 : ℚ),
  CityEntry.mk "SP" "SAO PAULO" (-23.5329 : ℚ) (-46.6395 : ℚ),
  CityEntry.mk "SP" "SAO VICENTE" (-23.9574 : ℚ) (-46.3883 : ℚ),
  CityEntry.mk "SP" "SERRA AZUL" (-21.3074 : ℚ) (-47.5602 : ℚ),
  CityEntry.mk "SP" "SERRA NEGRA" (-22.6139 : ℚ) (-46.7033 : ℚ),
  CityEntry.mk "SP" "SERTAOZINHO" (-21.1316 : ℚ) (-47.9875 : ℚ),
  CityEntry.mk "SP" "SOROCABA" (-23.4969 : ℚ) (-47.4451 : ℚ),
  CityEntry.mk "SP" "SUZANO" (-23.5448 : ℚ) (-46.3112 : ℚ),
  CityEntry.mk "SP" "TABOAO DA SERRA" (-23.6019 : ℚ) (-46.7526 : ℚ)
]

/-- The static gazetteer: all rows of `RAW_CITIES_CSV`, transcribed entry by entry. -/
def RAW_CITIES : List CityEntry :=
  rawCities0 ++ rawCities1 ++ rawCities2 ++ rawCities3

/-- JS `toUpperCase` on one character, covering ASCII and the Latin-1 letters
(the accented characters appearing in Brazilian city names). -/
def jsCharUpper (c : Char) : Char :=
  if ('a' ≤ c ∧ c ≤ 'z') ∨ ('à' ≤ c ∧ c ≤ 'þ' ∧ c ≠ '÷') then Char.ofNat (c.toNat - 32)
  else c

/-- JS `toUpperCase` on a character list. -/
def jsToUpperChars (cs : List Char) : List Char :=
  cs.map jsCharUpper

/-- `normalize("NFD").replace(/[̀-ͯ]/g, "")` on one Latin-1
character: decompose and drop the combining mark, keeping the base letter. -/
def stripAccentChar (c : Char) : Char :=
  if c ∈ ['À', 'Á', 'Â', 'Ã', 'Ä', 'Å'] then 'A'
  else if c = 'Ç' then 'C'
  else if c ∈ ['È', 'É', 'Ê', 'Ë'] then 'E'
  else if c ∈ ['Ì', 'Í', 'Î', 'Ï'] then 'I'
  else if c = 'Ñ' then 'N'
  else if c ∈ ['Ò', 'Ó', 'Ô', 'Õ', 'Ö'] then 'O'
  else if c ∈ ['Ù', 'Ú', 'Û', 'Ü'] then 'U'
  else if c = 'Ý' then 'Y'
  else if c ∈ ['à', 'á', 'â', 'ã', 'ä', 'å'] then 'a'
  else if c = 'ç' then 'c'
  else if c ∈ ['è', 'é', 'ê', 'ë'] then 'e'
  else if c ∈ ['ì', 'í', 'î', 'ï'] then 'i'
  else if c = 'ñ' then 'n'
  else if c ∈ ['ò', 'ó', 'ô', 'õ', 'ö'] then 'o'
  else if c ∈ ['ù', 'ú', 'û', 'ü'] then 'u'
  else if c ∈ ['ý', 'ÿ'] then 'y'
  else c

/-- Diacritic stripping on a character list. -/
def stripAccents (cs : List Char) : List Char :=
  cs.map stripAccentChar

/-- `replace(/X.*/, '')`: keep everything before the first occurrence. -/
def takeUntilChar (x : Char) (cs : List Char) : List Char :=
  cs.takeWhile (fun c => c ≠ x)

/-- The normalized city text of `getCityCoords`: uppercase, trim, strip
accents, drop a `-` or `/` suffix, trim. -/
def cleanCityOf (city : String) : List Char :=
  trimChars (takeUntilChar '/' (takeUntilChar '-'
    (stripAccents (trimChars (jsToUpperChars city.toList)))))

/-- The normalized state text of `getCityCoords`: uppercase, trim. -/
def cleanStateOf (state : String) : List Char :=
  trimChars (jsToUpperChars state.toList)

/-- The lazily built lookup table `cityCoordsCache`: key `CITYNAME-UF` mapped
to the coordinate pair, in gazetteer order. -/
def cityCoordsCache : List (List Char × (ℚ × ℚ)) :=
  RAW_CITIES.map (fun e =>
    (jsToUpperChars (trimChars e.city.toList) ++ '-' :: jsToUpperChars (trimChars e.uf.toList),
      (e.lat, e.lng)))

/-- `getCityCoords`: exact `CITY-STATE` lookup when a state is given, and the
first gazetteer key starting with `CITY-` when the state is blank. -/
def getCityCoords (city state : String) : Option (ℚ × ℚ) :=
  let cleanCity := cleanCityOf city
  let cleanState := cleanStateOf state
  if cleanState ≠ [] then
    cityCoordsCache.lookup (cleanCity ++ '-' :: cleanState)
  else
    (cityCoordsCache.find? (fun p => (cleanCity ++ ['-']).isPrefixOf p.1)).map (·.2)

/-- Per-city aggregate of `getGeoStats`. -/
structure GeoStats where
  city : String
  state : String
  lat : ℚ
  lng : ℚ
  revenue : ℚ
  positivacao : ℕ
deriving DecidableEq, Repr

/-- The display key of `getGeoStats`: the raw city text uppercased and cut at
the first `-`, paired with the raw state (or `BR` when blank). -/
def geoKeyCity (r : SaleRecord) : String :=
  String.mk (trimChars (takeUntilChar '-' (jsToUpperChars r.city.toList)))

/-- One iteration of the `getGeoStats` loop. -/
def geoStep (m : List (String × GeoStats)) (r : SaleRecord) : List (String × GeoStats) :=
  if r.city = "" then m
  else
    match getCityCoords r.city r.state with
    | none => m
    | some coords =>
      let state := if r.state = "" then "BR" else r.state
      let finalCityName := geoKeyCity r
      let key := finalCityName ++ "-" ++ state
      let m :=
        if (m.lookup key).isSome then m
        else m ++ [(key, ⟨finalCityName, state, coords.1, coords.2, 0, 0⟩)]
      m.map (fun p =>
        if p.1 = key then
          (p.1, { p.2 with
            revenue := p.2.revenue + r.amount
            positivacao := p.2.positivacao + (if 0 < r.amount then 1 else 0) })
        else p)

/-- `getGeoStats`: aggregate revenue and positive-row counts per display key,
sorted by revenue descending. -/
def getGeoStats (data : List SaleRecord) : List GeoStats :=
  ((data.foldl geoStep []).map (·.2)).mergeSort (fun a b => decide (b.revenue ≤ a.revenue))

/-- Record with city `SAO PAULO` and a blank state. -/
def exGeoBlank : SaleRecord :=
  { baseRec with city := "SAO PAULO", state := "", amount := 10, cnpj := "G1" }

/-- Record with city `SAO PAULO` and state `SP`. -/
def exGeoSP : SaleRecord :=
  { baseRec with city := "SAO PAULO", state := "SP", amount := 20, cnpj := "G2" }

/-- Two rows resolving to the same gazetteer coordinate, one with a blank
state and one with state `SP`. -/
def exGeoData : List SaleRecord :=
  [exGeoBlank, exGeoSP]

/-- A record in division `D1` dated inside the example filter range. -/
def exCascRec : SaleRecord :=
  { baseRec with date := "2025-01-15", division := "D1" }

/-- A filter state with no dimension constraints and range 2025-01 to 2025-12. -/
def exCascFilters : FilterState :=
  ⟨[], [], [], [], [], [], "2025-01", "2025-12"⟩

/-- C9: the Filter Engine is idempotent: filtering twice with the same filter
state yields exactly the same record list as filtering once. -/
theorem filterData_idempotent (data : List SaleRecord) (filters : FilterState) :
    filterData (filterData data filters) filters = filterData data filters := by
  simp [filterData, List.filter_filter]

-- ## Lemmas on insertion-ordered maps and deduplication

theorem mem_foldl_jsPushUnique (l : List String) :
    ∀ (acc : List String) (x : String), x ∈ l.foldl jsPushUnique acc ↔ x ∈ acc ∨ x ∈ l := by
  induction l with
  | nil => simp
  | cons c l ih =>
    intro acc x
    rw [List.foldl_cons, ih]
    unfold jsPushUnique
    by_cases h : c ∈ acc
    · rw [if_pos h]
      simp only [List.mem_cons]
      constructor
      · rintro (h1 | h1)
        · exact Or.inl h1
        · exact Or.inr (Or.inr h1)
      · rintro (h1 | h1 | h1)
        · exact Or.inl h1
        · exact Or.inl (h1 ▸ h)
        · exact Or.inr h1
    · rw [if_neg h]
      simp only [List.mem_append, List.mem_singleton, List.mem_cons, List.not_mem_nil,
        or_false, or_assoc]

theorem mem_jsDedup (l : List String) (x : String) : x ∈ jsDedup l ↔ x ∈ l := by
  unfold jsDedup
  rw [mem_foldl_jsPushUnique]
  simp

theorem nodup_foldl_jsPushUnique (l : List String) :
    ∀ acc : List String, acc.Nodup → (l.foldl jsPushUnique acc).Nodup := by
  induction l with
  | nil => intro acc h; simpa using h
  | cons c l ih =>
    intro acc h
    rw [List.foldl_cons]
    apply ih
    unfold jsPushUnique
    by_cases hc : c ∈ acc
    · rwa [if_pos hc]
    · rw [if_neg hc]
      simp [List.nodup_append, h, hc]

theorem nodup_jsDedup (l : List String) : (jsDedup l).Nodup :=
  nodup_foldl_jsPushUnique l [] List.nodup_nil

theorem jsDedup_perm_dedup (l : List String) : (jsDedup l).Perm l.dedup :=
  (List.perm_ext_iff_of_nodup (nodup_jsDedup l) l.nodup_dedup).mpr
    (fun a => by rw [mem_jsDedup, List.mem_dedup])

theorem jsDedup_append (l : List String) (x : String) :
    jsDedup (l ++ [x]) = jsPushUnique (jsDedup l) x := by
  simp [jsDedup, List.foldl_append]

theorem lookup_map_self {β : Type} (g : String → β) (l : List String) (k : String) :
    ((l.map (fun c => (c, g c))).lookup k) = if k ∈ l then some (g k) else none := by
  induction l with
  | nil => simp
  | cons c l ih =>
    by_cases h : k = c
    · subst h; simp [List.lookup_cons]
    · have hbeq : (k == c) = false := beq_eq_false_iff_ne.mpr h
      simp [List.lookup_cons, hbeq, ih, h]

-- ## The client net-revenue map (`clientNetRevenue`)

theorem specClientNet_append (data : List SaleRecord) (r : SaleRecord) (c : String) :
    specClientNet (data ++ [r]) c =
      specClientNet data c + (if r.cnpj = c then r.amount else 0) := by
  simp only [specClientNet, List.filter_append, List.map_append, List.sum_append]
  by_cases h : r.cnpj = c
  · simp [List.filter_cons, h]
  · simp [List.filter_cons, h]

theorem specClientNet_of_not_mem (data : List SaleRecord) (c : String)
    (h : c ∉ data.map (·.cnpj)) : specClientNet data c = 0 := by
  have : data.filter (fun r => r.cnpj == c) = [] := by
    rw [List.filter_eq_nil_iff]
    intro r hr hbeq
    exact h (List.mem_map.mpr ⟨r, hr, by simpa using hbeq⟩)
  simp [specClientNet, this]

theorem clientNetRevenue_eq (data : List SaleRecord) :
    clientNetRevenue data =
      (jsDedup (data.map (·.cnpj))).map (fun c => (c, specClientNet data c)) := by
  induction data using List.reverseRecOn with
  | nil => simp [clientNetRevenue, jsDedup]
  | append_singleton data r ih =>
    have hstep : clientNetRevenue (data ++ [r]) =
        addAmount (clientNetRevenue data) r.cnpj r.amount := by
      simp [clientNetRevenue, List.foldl_append]
    have hmap : (data ++ [r]).map (·.cnpj) = data.map (·.cnpj) ++ [r.cnpj] := by simp
    rw [hstep, ih, hmap, jsDedup_append]
    by_cases hmem : r.cnpj ∈ jsDedup (data.map (·.cnpj))
    · have hlk : ((jsDedup (data.map (·.cnpj))).map
          (fun c => (c, specClientNet data c))).lookup r.cnpj
            = some (specClientNet data r.cnpj) := by
        rw [lookup_map_self]; simp [hmem]
      rw [addAmount, hlk]
      simp only [Option.isSome_some, if_true]
      rw [jsPushUnique, if_pos hmem, List.map_map]
      apply List.map_congr_left
      intro c _
      by_cases hc : c = r.cnpj
      · subst hc
        simp [specClientNet_append]
      · have : r.cnpj ≠ c := fun h => hc h.symm
        simp [Function.comp, hc, specClientNet_append, this]
    · have hlk : ((jsDedup (data.map (·.cnpj))).map
          (fun c => (c, specClientNet data c))).lookup r.cnpj = none := by
        rw [lookup_map_self]; simp [hmem]
      rw [addAmount, hlk]
      simp only [Option.isSome_none, Bool.false_eq_true, if_false]
      rw [jsPushUnique, if_neg hmem, List.map_append]
      congr 1
      · apply List.map_congr_left
        intro c hc
        have hne : r.cnpj ≠ c := fun h => hmem (h ▸ hc)
        simp [specClientNet_append, hne]
      · have h0 : specClientNet data r.cnpj = 0 :=
          specClientNet_of_not_mem data r.cnpj (fun h => hmem ((mem_jsDedup _ _).mpr h))
        simp [specClientNet_append, h0]

theorem activeClients_eq (data : List SaleRecord) :
    activeClients data =
      (jsDedup (data.map (·.cnpj))).filter (fun c => decide (0 < specClientNet data c)) := by
  rw [activeClients, clientNetRevenue_eq, List.filter_map, List.map_map]
  simp only [Function.comp_def]
  apply List.map_id'

theorem positivacaoOf_eq (data : List SaleRecord) :
    positivacaoOf data = specPositivacao data := by
  rw [positivacaoOf, activeClients_eq, specPositivacao]
  exact ((jsDedup_perm_dedup _).filter _).length_eq

/-- C2: for every record list, `positivacao` equals the number of distinct
client identifiers whose summed amount over the list is strictly greater than
zero; a client with a zero or negative net sum is not counted. -/
theorem positivacao_spec (data : List SaleRecord) :
    (calculateStatsInternal data).positivacao = specPositivacao data :=
  positivacaoOf_eq data

/-- C3: for every record list, `totalOrders` equals the count of distinct
order identifiers among SALE rows minus the count among RETURN rows, floored
at zero, and is in particular never negative. -/
theorem totalOrders_spec (data : List SaleRecord) :
    (calculateStatsInternal data).totalOrders =
      max 0 ((((salesOf data).map (·.orderId)).dedup.length : ℤ)
        - (((returnsOf data).map (·.orderId)).dedup.length : ℤ)) ∧
    0 ≤ (calculateStatsInternal data).totalOrders := by
  constructor
  · show totalOrdersOf data = _
    rw [totalOrdersOf, distinctOrdersVD, distinctOrdersDV, List.card_toFinset,
      List.card_toFinset]
  · exact le_max_left _ _

-- ## The per-client SKU map (`clientSkuMap`)

theorem vdCodes_append (data : List SaleRecord) (r : SaleRecord) (c : String) :
    vdCodes (data ++ [r]) c =
      if r.cnpj = c ∧ r.operClass = "VD" then insert r.productCode (vdCodes data c)
      else vdCodes data c := by
  simp only [vdCodes, List.filter_append, List.map_append, List.toFinset_append]
  by_cases h1 : r.cnpj = c
  · by_cases h2 : r.operClass = "VD"
    · have hins : ((data.filter (fun r => r.cnpj == c && r.operClass == "VD")).map
          (·.productCode)).toFinset ∪ ({r.productCode} : Finset String)
          = insert r.productCode ((data.filter
              (fun r => r.cnpj == c && r.operClass == "VD")).map (·.productCode)).toFinset := by
        ext x; simp [or_comm]
      simp only [List.filter_cons, h1, h2]
      simp [hins, vdCodes, h1, h2]
    · simp [List.filter_cons, h1, h2, vdCodes]
  · simp [List.filter_cons, h1, vdCodes]

theorem dvCodes_append (data : List SaleRecord) (r : SaleRecord) (c : String) :
    dvCodes (data ++ [r]) c =
      if r.cnpj = c ∧ r.operClass = "DV" then insert r.productCode (dvCodes data c)
      else dvCodes data c := by
  simp only [dvCodes, List.filter_append, List.map_append, List.toFinset_append]
  by_cases h1 : r.cnpj = c
  · by_cases h2 : r.operClass = "DV"
    · have hins : ((data.filter (fun r => r.cnpj == c && r.operClass == "DV")).map
          (·.productCode)).toFinset ∪ ({r.productCode} : Finset String)
          = insert r.productCode ((data.filter
              (fun r => r.cnpj == c && r.operClass == "DV")).map (·.productCode)).toFinset := by
        ext x; simp [or_comm]
      simp only [List.filter_cons, h1, h2]
      simp [hins, dvCodes, h1, h2]
    · simp [List.filter_cons, h1, h2, dvCodes]
  · simp [List.filter_cons, h1, dvCodes]

theorem vdCodes_of_not_mem (data : List SaleRecord) (c : String)
    (h : c ∉ data.map (·.cnpj)) : vdCodes data c = ∅ := by
  have : data.filter (fun r => r.cnpj == c && r.operClass == "VD") = [] := by
    rw [List.filter_eq_nil_iff]
    intro r hr hbeq
    exact h (List.mem_map.mpr ⟨r, hr, by
      rcases Bool.and_eq_true_iff.mp hbeq with ⟨h1, _⟩
      simpa using h1⟩)
  simp [vdCodes, this]

theorem dvCodes_of_not_mem (data : List SaleRecord) (c : String)
    (h : c ∉ data.map (·.cnpj)) : dvCodes data c = ∅ := by
  have : data.filter (fun r => r.cnpj == c && r.operClass == "DV") = [] := by
    rw [List.filter_eq_nil_iff]
    intro r hr hbeq
    exact h (List.mem_map.mpr ⟨r, hr, by
      rcases Bool.and_eq_true_iff.mp hbeq with ⟨h1, _⟩
      simpa using h1⟩)
  simp [dvCodes, this]

theorem clientSkuMap_eq (data : List SaleRecord) :
    clientSkuMap data =
      (jsDedup (data.map (·.cnpj))).map
        (fun c => (c, (vdCodes data c, dvCodes data c))) := by
  induction data using List.reverseRecOn with
  | nil => simp [clientSkuMap, jsDedup]
  | append_singleton data r ih =>
    have hstep : clientSkuMap (data ++ [r]) = skuAdd (clientSkuMap data) r := by
      simp [clientSkuMap, List.foldl_append]
    have hmap : (data ++ [r]).map (·.cnpj) = data.map (·.cnpj) ++ [r.cnpj] := by simp
    rw [hstep, ih, hmap, jsDedup_append]
    by_cases hmem : r.cnpj ∈ jsDedup (data.map (·.cnpj))
    · have hlk : ((jsDedup (data.map (·.cnpj))).map
          (fun c => (c, (vdCodes data c, dvCodes data c)))).lookup r.cnpj
            = some (vdCodes data r.cnpj, dvCodes data r.cnpj) := by
        rw [lookup_map_self]; simp [hmem]
      rw [jsPushUnique, if_pos hmem]
      simp only [skuAdd, hlk, Option.isSome_some, if_true]
      by_cases hVD : r.operClass = "VD"
      · have hbeq : (r.operClass == "VD") = true := by simp [hVD]
        simp only [hbeq, if_true, List.map_map]
        apply List.map_congr_left
        intro c hc
        by_cases hc' : c = r.cnpj
        · subst hc'
          simp [Function.comp, vdCodes_append, dvCodes_append, hVD]
        · have hne : r.cnpj ≠ c := fun h => hc' h.symm
          simp [Function.comp, vdCodes_append, dvCodes_append, hc', hne]
      · by_cases hDV : r.operClass = "DV"
        · have hbeq : (r.operClass == "VD") = false := by simp [hVD]
          have hbeq2 : (r.operClass == "DV") = true := by simp [hDV]
          simp only [hbeq, Bool.false_eq_true, if_false, hbeq2, if_true, List.map_map]
          apply List.map_congr_left
          intro c hc
          by_cases hc' : c = r.cnpj
          · subst hc'
            simp [Function.comp, vdCodes_append, dvCodes_append, hDV, hVD]
          · have hne : r.cnpj ≠ c := fun h => hc' h.symm
            simp [Function.comp, vdCodes_append, dvCodes_append, hc', hne]
        · have hbeq : (r.operClass == "VD") = false := by simp [hVD]
          have hbeq2 : (r.operClass == "DV") = false := by simp [hDV]
          simp only [hbeq, Bool.false_eq_true, if_false, hbeq2]
          apply List.map_congr_left
          intro c hc
          simp [vdCodes_append, dvCodes_append, hVD, hDV]
    · have hlk : ((jsDedup (data.map (·.cnpj))).map
          (fun c => (c, (vdCodes data c, dvCodes data c)))).lookup r.cnpj = none := by
        rw [lookup_map_self]; simp [hmem]
      have hnotL : r.cnpj ∉ data.map (·.cnpj) := fun h => hmem ((mem_jsDedup _ _).mpr h)
      have hvd0 : vdCodes data r.cnpj = ∅ := vdCodes_of_not_mem data r.cnpj hnotL
      have hdv0 : dvCodes data r.cnpj = ∅ := dvCodes_of_not_mem data r.cnpj hnotL
      rw [jsPushUnique, if_neg hmem]
      simp only [skuAdd, hlk, Option.isSome_none, Bool.false_eq_true, if_false]
      by_cases hVD : r.operClass = "VD"
      · have hbeq : (r.operClass == "VD") = true := by simp [hVD]
        simp only [hbeq, if_true, List.map_append, List.map_map, List.map_cons, List.map_nil]
        congr 1
        · apply List.map_congr_left
          intro c hc
          have hne : r.cnpj ≠ c := fun h => hmem (h ▸ hc)
          have hne' : ¬ c = r.cnpj := fun h => hne h.symm
          simp [Function.comp, vdCodes_append, dvCodes_append, hne, hne']
        · simp [vdCodes_append, dvCodes_append, hVD, hvd0, hdv0]
      · by_cases hDV : r.operClass = "DV"
        · have hbeq : (r.operClass == "VD") = false := by simp [hVD]
          have hbeq2 : (r.operClass == "DV") = true := by simp [hDV]
          simp only [hbeq, Bool.false_eq_true, if_false, hbeq2, if_true, List.map_append,
            List.map_map, List.map_cons, List.map_nil]
          congr 1
          · apply List.map_congr_left
            intro c hc
            have hne : r.cnpj ≠ c := fun h => hmem (h ▸ hc)
            have hne' : ¬ c = r.cnpj := fun h => hne h.symm
            simp [Function.comp, vdCodes_append, dvCodes_append, hne, hne']
          · simp [vdCodes_append, dvCodes_append, hDV, hVD, hvd0, hdv0]
        · have hbeq : (r.operClass == "VD") = false := by simp [hVD]
          have hbeq2 : (r.operClass == "DV") = false := by simp [hDV]
          simp only [hbeq, Bool.false_eq_true, if_false, hbeq2, List.map_append, List.map_cons,
            List.map_nil]
          congr 1
          · apply List.map_congr_left
            intro c hc
            have hne : r.cnpj ≠ c := fun h => hmem (h ▸ hc)
            have hne' : ¬ c = r.cnpj := fun h => hne h.symm
            simp [vdCodes_append, dvCodes_append, hne, hne']
          · simp [vdCodes_append, dvCodes_append, hVD, hDV, hvd0, hdv0]

theorem foldl_netsku (data : List SaleRecord) (l : List String) :
    ∀ (a : ℤ), (∀ c ∈ l, c ∈ jsDedup (data.map (·.cnpj))) →
      (l.foldl (fun acc c =>
        match (clientSkuMap data).lookup c with
        | some s => acc + max 0 ((s.1.card : ℤ) - (s.2.card : ℤ))
        | none => acc) a)
      = a + (l.map (fun c =>
          max 0 (((vdCodes data c).card : ℤ) - ((dvCodes data c).card : ℤ)))).sum := by
  induction l with
  | nil => intro a _; simp
  | cons c l ih =>
    intro a h
    have hc : c ∈ jsDedup (data.map (·.cnpj)) := h c (by simp)
    have hlk : (clientSkuMap data).lookup c = some (vdCodes data c, dvCodes data c) := by
      rw [clientSkuMap_eq, lookup_map_self]; simp [hc]
    rw [List.foldl_cons, List.map_cons, List.sum_cons]
    simp only [hlk]
    rw [ih _ (fun x hx => h x (by simp [hx]))]
    ring

theorem totalNetSkus_eq (data : List SaleRecord) :
    totalNetSkusOf data = ((activeClients data).map (fun c =>
      max 0 (((vdCodes data c).card : ℤ) - ((dvCodes data c).card : ℤ)))).sum := by
  rw [totalNetSkusOf, foldl_netsku data (activeClients data) 0 ?_]
  · ring
  · intro c hc
    rw [activeClients_eq] at hc
    exact List.mem_of_mem_filter hc

theorem netSku_sum_eq_spec (data : List SaleRecord) :
    ((activeClients data).map (fun c =>
      max 0 (((vdCodes data c).card : ℤ) - ((dvCodes data c).card : ℤ)))).sum
      = specSkuSum data := by
  rw [activeClients_eq, specSkuSum]
  have hperm := ((jsDedup_perm_dedup (data.map (·.cnpj))).filter
    (fun c => decide (0 < specClientNet data c))).map (fun c =>
      max 0 (((vdCodes data c).card : ℤ) - ((dvCodes data c).card : ℤ)))
  rw [hperm.sum_eq]
  congr 1

/-- C4: for every record list, `skuPerPdv` equals the sum over exactly the
positivated clients of `max(0, distinct SALE product codes − distinct RETURN
product codes)`, divided by `positivacao`, and equals `0` when `positivacao`
is `0`; non-positivated clients never contribute. -/
theorem skuPerPdv_spec (data : List SaleRecord) :
    (calculateStatsInternal data).skuPerPdv =
      if 0 < specPositivacao data
      then (specSkuSum data : ℚ) / (specPositivacao data : ℚ) else 0 := by
  show skuPerPdvOf data = _
  rw [skuPerPdvOf, positivacaoOf_eq, totalNetSkus_eq, netSku_sum_eq_spec]

theorem computeOrderTerm_of_invalid (r : SaleRecord) (h : hasValidTermTokens r = false) :
    computeOrderTerm r = some 0 := by
  rw [hasValidTermTokens, Bool.or_eq_false_iff] at h
  obtain ⟨h1, h2⟩ := h
  rw [decide_eq_false_iff_not] at h1 h2
  simp only [computeOrderTerm, if_neg h1, if_neg h2]

/-- C1 (amended): in the `avgTerm` computation, for a SALE row with non-empty
payment-terms text and a date whose order is not yet cached, an order whose
terms yield neither an explicit due-date token nor a numeric day-offset token
in `(0, 2000)` is included in the weighted average with an average of zero
days (contributing nothing to the weighted-days numerator but its amount to
the revenue denominator), while an order whose computed average days is
negative contributes to neither. -/
theorem avgTerm_amended (s : TermState) (r : SaleRecord)
    (hterms : r.paymentTerms ≠ "") (hdate : r.date ≠ "")
    (hnocache : s.orderTermCache.lookup r.orderId = none) :
    (hasValidTermTokens r = false →
      avgTermStep s r =
        { totalWeightedDays := s.totalWeightedDays
          totalSalesForTerm := s.totalSalesForTerm + r.amount
          orderTermCache := s.orderTermCache ++ [(r.orderId, some 0)] }) ∧
    (∀ q : ℚ, computeOrderTerm r = some q → q < 0 →
      (avgTermStep s r).totalWeightedDays = s.totalWeightedDays ∧
      (avgTermStep s r).totalSalesForTerm = s.totalSalesForTerm) := by
  constructor
  · intro hinv
    have hc := computeOrderTerm_of_invalid r hinv
    simp only [avgTermStep, if_pos (And.intro hterms hdate), hnocache, hc]
    simp
  · intro q hq hneg
    simp only [avgTermStep, if_pos (And.intro hterms hdate), hnocache, hq]
    simp [not_le.mpr hneg]

/-- C1 witness for the amended theorem: a concrete invalid-terms sale row is
included with zero weighted days and its full amount in the denominator. -/
theorem avgTerm_amended_witness :
    avgTermStep ⟨0, 0, []⟩ exTermInvalid =
      { totalWeightedDays := 0
        totalSalesForTerm := (0 : ℚ) + 100
        orderTermCache := [("A", some 0)] } :=
  (avgTerm_amended ⟨0, 0, []⟩ exTermInvalid (by decide) (by decide) rfl).1 (by decide)

/-- C1 counterexample: on `exC1data` the code yields 5 (the invalid order
contributes its amount to the denominator) while excluding invalid orders as
the claim states would yield 10. -/
theorem avgTerm_counterexample :
    avgTermOf exC1data = 5 ∧ specAvgTermOf exC1data = 10 ∧
      avgTermOf exC1data ≠ specAvgTermOf exC1data := by
  have h1 : avgTermOf exC1data = 5 := by
    simp [avgTermOf, salesOf, exC1data, exTermInvalid, exTermValid, baseRec, avgTermStep,
      computeOrderTerm, findDateTokens, findDateTokensAux, dateTokenAt, splitDashSlash,
      jsParseIntChars, trimChars, isWsChar, isDigitChar, digitVal, splitOnChar,
      parseNfeDate, jsNumberInt, jsDateDays, List.lookup]
    norm_num
  have h2 : specAvgTermOf exC1data = 10 := by
    simp [specAvgTermOf, salesOf, exC1data, exTermInvalid, exTermValid, baseRec,
      specAvgTermStep, hasValidTermTokens, computeOrderTerm, findDateTokens,
      findDateTokensAux, dateTokenAt, splitDashSlash, jsParseIntChars, trimChars, isWsChar,
      isDigitChar, digitVal, splitOnChar, parseNfeDate, jsNumberInt, jsDateDays, List.lookup]
  exact ⟨h1, h2, by rw [h1, h2]; norm_num⟩

/-- C5: in the pivot table, for every displayed month, the column total of a
ratio metric (averageTicket, skuPerPdv, avgTerm, avgInstallments) equals the
arithmetic mean of that metric over the displayed rows (a row missing the
month counting as 0), while for an additive metric (totalRevenue, positivacao,
totalOrders) it equals the sum over the displayed rows. -/
theorem columnTotal_spec (rows : List PivotRow) (dataKey mKey : String) :
    (dataKey ∈ ["averageTicket", "skuPerPdv", "avgTerm", "avgInstallments"] →
      calculateColumnTotal rows dataKey mKey =
        ((rows.map (fun row => columnValue row dataKey mKey)).sum) / (rows.length : ℚ)) ∧
    (dataKey ∈ ["totalRevenue", "positivacao", "totalOrders"] →
      calculateColumnTotal rows dataKey mKey =
        (rows.map (fun row => columnValue row dataKey mKey)).sum) := by
  constructor
  · intro hmem
    have hr : isRatioMetric dataKey = true := by
      simp only [List.mem_cons, List.not_mem_nil, or_false] at hmem
      rcases hmem with h | h | h | h <;> subst h <;> decide
    rw [calculateColumnTotal]
    simp only [hr, if_true]
    by_cases hlen : rows.length = 0
    · rw [if_pos hlen]
      rw [List.length_eq_zero] at hlen
      subst hlen
      simp
    · rw [if_neg hlen, ← List.sum_eq_foldl]
  · intro hmem
    have hr : isRatioMetric dataKey = false := by
      simp only [List.mem_cons, List.not_mem_nil, or_false] at hmem
      rcases hmem with h | h | h <;> subst h <;> decide
    rw [calculateColumnTotal]
    simp only [hr, Bool.false_eq_true, if_false]
    by_cases hlen : rows.length = 0
    · rw [if_pos hlen]
      rw [List.length_eq_zero] at hlen
      subst hlen
      simp
    · rw [if_neg hlen, ← List.sum_eq_foldl]

/-- C5 witness: on two concrete rows (one missing the month), the ratio metric
averageTicket averages to 25 and the additive metric totalRevenue sums to 100. -/
theorem columnTotal_spec_witness :
    calculateColumnTotal exPivotRows "averageTicket" "2025-08" = 25 ∧
      calculateColumnTotal exPivotRows "totalRevenue" "2025-08" = 100 := by
  constructor
  · have h := (columnTotal_spec exPivotRows "averageTicket" "2025-08").1 (by decide)
    rw [h]
    simp [exPivotRows, columnValue, exStats, statGet, List.lookup]
    norm_num
  · have h := (columnTotal_spec exPivotRows "totalRevenue" "2025-08").2 (by decide)
    rw [h]
    simp [exPivotRows, columnValue, exStats, statGet, List.lookup]

theorem filterMap_length_countP {α β : Type} (f : α → Option β) (l : List α) :
    (l.filterMap f).length = l.countP (fun a => (f a).isSome) := by
  induction l with
  | nil => simp
  | cons a l ih =>
    cases h : f a <;> simp [List.filterMap_cons, h, List.countP_cons, ih]

theorem rowToRecord_isSome (i : ℕ) (row : List (String × String)) :
    (rowToRecord i row).isSome = decide (parseDate (dateStrOf row) ≠ "") := by
  rw [rowToRecord]
  split
  · simp [*]
  · simp [*]

theorem parseCSV_length (rows : List (List (String × String))) :
    (parseCSV rows).length
      = rows.countP (fun row => decide (parseDate (dateStrOf row) ≠ "")) := by
  rw [parseCSV, List.length_mergeSort, filterMap_length_countP]
  have h1 : rows.enum.countP (fun p => (rowToRecord p.1 p.2).isSome)
      = rows.enum.countP (fun p => decide (parseDate (dateStrOf p.2) ≠ "")) := by
    apply List.countP_congr
    intro p _
    rw [rowToRecord_isSome p.1 p.2]
  rw [h1]
  conv_rhs => rw [← List.enum_map_snd rows, List.countP_map]
  rfl

theorem parseDate_iso (s : String) (h : isIsoDate s = true) : parseDate s = s := by
  have hne : ¬ s = "" := by
    intro he
    subst he
    simp [isIsoDate, isIsoChars] at h
  rw [parseDate, if_neg hne, if_pos h]

theorem parseDate_three_parts (s : String) (a b c : List Char)
    (hsplit : splitOnChar '/' s.toList = [a, b, c]) (hiso : isIsoDate s = false) :
    parseDate s = String.mk (c ++ '-' :: b ++ '-' :: a) := by
  have hne : ¬ s = "" := by
    intro he
    subst he
    simp [splitOnChar, String.toList] at hsplit
  rw [parseDate, if_neg hne, if_neg (by simp [hiso]), hsplit]

theorem parseDate_other (s : String) (hiso : isIsoDate s = false)
    (hlen : (splitOnChar '/' s.toList).length ≠ 3) : parseDate s = "" := by
  by_cases hne : s = ""
  · rw [parseDate, if_pos hne]
  · rw [parseDate, if_neg hne, if_neg (by simp [hiso])]
    rcases hl : splitOnChar '/' s.toList with _ | ⟨a, _ | ⟨b, _ | ⟨c, _ | ⟨d, t⟩⟩⟩⟩
    · rfl
    · rfl
    · rfl
    · exfalso
      rw [hl] at hlen
      exact hlen rfl
    · rfl

theorem parseCSV_mem_date (rows : List (List (String × String))) (r : SaleRecord)
    (hr : r ∈ parseCSV rows) : r.date ≠ "" := by
  rw [parseCSV, List.mem_mergeSort] at hr
  obtain ⟨p, _, heq⟩ := List.mem_filterMap.mp hr
  rw [rowToRecord] at heq
  split at heq
  · cases heq
    simpa using ‹parseDate (dateStrOf p.2) ≠ ""›
  · cases heq

/-- C6 (amended): date normalization returns a `YYYY-MM-DD` shaped string
unchanged and rewrites any string splitting on `/` into exactly three parts
(in particular `DD/MM/YYYY`) to `parts[2]-parts[1]-parts[0]`; only strings
matching neither shape map to the empty string.  Rows whose normalized date
is empty are dropped from the normalizer output: the output has exactly one
record per row with a non-empty normalized date, and every output record has
a non-empty date. -/
theorem parseDate_amended :
    (∀ s : String, isIsoDate s = true → parseDate s = s) ∧
    (∀ (s : String) (a b c : List Char), splitOnChar '/' s.toList = [a, b, c] →
      isIsoDate s = false → parseDate s = String.mk (c ++ '-' :: b ++ '-' :: a)) ∧
    (∀ s : String, isIsoDate s = false → (splitOnChar '/' s.toList).length ≠ 3 →
      parseDate s = "") ∧
    (∀ rows, (parseCSV rows).length
      = rows.countP (fun row => decide (parseDate (dateStrOf row) ≠ ""))) ∧
    (∀ rows r, r ∈ parseCSV rows → r.date ≠ "") :=
  ⟨parseDate_iso, parseDate_three_parts, parseDate_other, parseCSV_length,
    parseCSV_mem_date⟩

/-- C6 witness: the amended theorem evaluated at concrete dates of each shape
and at a concrete one-row input. -/
theorem parseDate_amended_witness :
    parseDate "2025-01-02" = "2025-01-02" ∧ parseDate "05/06/2025" = "2025-06-05" ∧
      parseDate "xyz" = "" ∧ (parseCSV [[("Data NFE", "05/06/2025")]]).length = 1 := by
  obtain ⟨h1, h2, h3, h4, _⟩ := parseDate_amended
  refine ⟨h1 _ (by decide),
    ?_,
    h3 "xyz" (by decide) (by decide),
    ?_⟩
  · have := h2 "05/06/2025" ['0', '5'] ['0', '6'] ['2', '0', '2', '5'] (by decide) (by decide)
    simpa using this
  · rw [h4]
    decide

/-- C6 counterexample: the input `a/b/c` is neither ISO shaped nor a
`DD/MM/YYYY` date, yet normalization maps it to `c-b-a`, not to the empty
string, and a row carrying it is not dropped. -/
theorem parseDate_counterexample :
    parseDate "a/b/c" = "c-b-a" ∧ parseDate "a/b/c" ≠ "" ∧
      (parseCSV [exRawRowBadDate]).length = 1 := by
  refine ⟨by decide, by decide, ?_⟩
  rw [parseCSV_length]
  decide

theorem mem_allDims (e : Dim) : e ∈ allDims := by
  cases e <;> simp [allDims]

theorem dimPass_iff (cf : FilterState) (d : Dim) (r : SaleRecord) (e : Dim) :
    dimPass (filtersWithout cf d) r e = true ↔
      (e = d ∨ matchesFilter (dimField e r) (dimFilter e cf) = true) := by
  rw [dimPass, filtersWithout]
  by_cases hed : e = d
  · simp [hed]
  · simp only [if_neg hed]
    simp [matchesFilter, hed]
    tauto

theorem dateInRange_iff (cf : FilterState) (r : SaleRecord) :
    dateInRange cf r = true ↔
      (cf.startMonth ≤ recordMonth r ∧ recordMonth r ≤ cf.endMonth) := by
  rw [dateInRange]
  simp [not_lt]

/-- C7: the cascading-options set of a dimension equals the distinct non-empty
values of that dimension over exactly the records passing the date-month range
and every other dimension filter (its own filter excluded), without
duplicates and in ascending order. -/
theorem cascadingOptions_spec (data : List SaleRecord) (cf : FilterState) (d : Dim) :
    (getCascadingOptions data cf d).Sorted (· ≤ ·) ∧
    (getCascadingOptions data cf d).Nodup ∧
    (∀ v : String, v ∈ getCascadingOptions data cf d ↔
      (v ≠ "" ∧ ∃ r ∈ data,
        (cf.startMonth ≤ recordMonth r ∧ recordMonth r ≤ cf.endMonth) ∧
        (∀ e : Dim, e ≠ d → matchesFilter (dimField e r) (dimFilter e cf) = true) ∧
        dimField d r = v)) := by
  refine ⟨?_, ?_, ?_⟩
  · have h := @List.sorted_mergeSort String
      (fun a b : String => decide (a ≤ b))
      (fun a b c hab hbc => by
        simp only [decide_eq_true_eq] at *
        exact le_trans hab hbc)
      (fun a b => by
        simpa [Bool.or_eq_true, decide_eq_true_eq] using le_total a b)
      ((jsDedup ((data.filter (fun r =>
        dateInRange cf r && allDims.all (fun e => dimPass (filtersWithout cf d) r e))).map
          (dimField d))).filter (fun v => v ≠ ""))
    exact h.imp (fun hab => by exact of_decide_eq_true hab)
  · have hnd : ((jsDedup ((data.filter (fun r =>
        dateInRange cf r && allDims.all (fun e => dimPass (filtersWithout cf d) r e))).map
          (dimField d))).filter (fun v => v ≠ "")).Nodup :=
      (nodup_jsDedup _).filter _
    exact ((List.mergeSort_perm _ _).nodup_iff).mpr hnd
  · intro v
    rw [getCascadingOptions, getOptionsFor]
    simp only [List.mem_mergeSort, List.mem_filter, mem_jsDedup, List.mem_map,
      List.mem_filter]
    constructor
    · rintro ⟨⟨r, ⟨hrmem, hrpass⟩, hrv⟩, hvne⟩
      rw [Bool.and_eq_true, dateInRange_iff, List.all_eq_true] at hrpass
      refine ⟨by simpa using hvne, r, hrmem, hrpass.1, ?_, hrv⟩
      intro e hed
      have := hrpass.2 e (mem_allDims e)
      rcases (dimPass_iff cf d r e).mp this with h | h
      · exact absurd h hed
      · exact h
    · rintro ⟨hvne, r, hrmem, hdate, hdims, hrv⟩
      refine ⟨⟨r, ⟨hrmem, ?_⟩, hrv⟩, by simpa using hvne⟩
      rw [Bool.and_eq_true, dateInRange_iff, List.all_eq_true]
      refine ⟨hdate, ?_⟩
      intro e _
      rw [dimPass_iff]
      by_cases hed : e = d
      · exact Or.inl hed
      · exact Or.inr (hdims e hed)

set_option maxRecDepth 100000 in
/-- C8: a record with city `São Paulo` and blank state resolves to the same
coordinate as a record with city `SAO PAULO` and state `SP` (case- and
diacritic-insensitive matching with a state-optional fallback), and the
resolution succeeds. -/
theorem geoResolve_saopaulo :
    getCityCoords "São Paulo" "" = getCityCoords "SAO PAULO" "SP" ∧
      (getCityCoords "São Paulo" "").isSome = true :=
  ⟨rfl, rfl⟩

set_option maxRecDepth 200000 in
/-- C10: geo aggregation keys its output by the raw city text and raw state
(`BR` when blank), not by the resolved gazetteer entry: two rows resolving to
the same coordinate, one with blank state and one with state `SP`, produce
two distinct `GeoStats` entries with identical latitude and longitude. -/
theorem getGeoStats_splits_blank_state :
    (getGeoStats exGeoData).Perm
      [GeoStats.mk "SAO PAULO" "BR" (-23.5329 : ℚ) (-46.6395 : ℚ) 10 1,
        GeoStats.mk "SAO PAULO" "SP" (-23.5329 : ℚ) (-46.6395 : ℚ) 20 1] ∧
      (getGeoStats exGeoData).length = 2 := by
  have hpre : (exGeoData.foldl geoStep []).map (·.2) =
      [GeoStats.mk "SAO PAULO" "BR" (-23.5329 : ℚ) (-46.6395 : ℚ) 10 1,
        GeoStats.mk "SAO PAULO" "SP" (-23.5329 : ℚ) (-46.6395 : ℚ) 20 1] := by
    with_unfolding_all rfl
  have hperm : (getGeoStats exGeoData).Perm ((exGeoData.foldl geoStep []).map (·.2)) :=
    List.mergeSort_perm _ _
  rw [hpre] at hperm
  exact ⟨hperm, hperm.length_eq.trans rfl⟩

/-- C7 witness: on a one-record list in division `D1` and an unconstrained
filter state, `D1` is offered as a cascading division option. -/
theorem cascadingOptions_spec_witness :
    "D1" ∈ getCascadingOptions [exCascRec] exCascFilters Dim.division := by
  refine ((cascadingOptions_spec [exCascRec] exCascFilters Dim.division).2.2 "D1").mpr ?_
  have hm : recordMonth exCascRec = "2025-01" := rfl
  refine ⟨by decide, exCascRec, List.mem_singleton.mpr rfl, ⟨?_, ?_⟩, ?_, rfl⟩
  · rw [hm, String.le_iff_toList_le]
    decide
  · rw [hm, String.le_iff_toList_le]
    decide
  · intro e _
    cases e <;> rfl
